import Mathlib

/-!
Verification development for the "oracle-of-cold-calls" repository.

The Python sources under `src/` are shallowly embedded as executable Lean
definitions: pure functions become Lean functions, the dual-layer session
store becomes explicit state passing over an assoc-list memory and a list
of on-disk files, and external HTTP effects (HubSpot, Octave) become
oracle functions passed in as parameters.  Strings are modelled with
Lean `String`, using explicit `List Char` based helpers for the Python
string methods (`lower` / `upper` / `strip`) so that every definition
reduces inside the kernel; the helpers are ASCII-faithful, which covers
every string constant appearing in the sources.
-/

/-! ## Python string primitives -/

/-- Python `str.lower()` (ASCII model). -/
def pyLower (s : String) : String := String.mk (s.data.map Char.toLower)

/-- Python `str.upper()` (ASCII model). -/
def pyUpper (s : String) : String := String.mk (s.data.map Char.toUpper)

/-- Characters removed by Python `str.strip()`. -/
def pySpace (c : Char) : Bool :=
  c == ' ' || c == '\t' || c == '\n' || c == '\r' || c == '\x0b' || c == '\x0c'

/-- Python `str.strip()`: drop leading and trailing whitespace. -/
def pyStrip (s : String) : String :=
  String.mk (((s.data.dropWhile pySpace).reverse.dropWhile pySpace).reverse)

/-- Does `cs` start with `w` (character-list version)? -/
def listStartsWith : List Char → List Char → Bool
  | _, [] => true
  | [], _ :: _ => false
  | c :: cs, w :: ws => c == w && listStartsWith cs ws

/-- Python `w in t` substring test, over character lists. -/
def listContainsSub (w : List Char) : List Char → Bool
  | [] => listStartsWith [] w
  | c :: cs => listStartsWith (c :: cs) w || listContainsSub w cs

/-- Python `w in t` substring test. -/
def containsSub (t w : String) : Bool := listContainsSub w.data t.data

/-- Word characters in the sense of the regex `\b` boundary (ASCII model). -/
def isWordChar (c : Char) : Bool := c.isAlphanum || c == '_'

/-- Does `cs` start with the word `w` followed by a word boundary? -/
def wordMatchAt (w cs : List Char) : Bool :=
  listStartsWith cs w &&
    (match cs.drop w.length with
     | [] => true
     | c :: _ => !isWordChar c)

/-- Is the previous character (if any) a word boundary for a match here? -/
def boundaryBefore : Option Char → Bool
  | none => true
  | some c => !isWordChar c

/-- Scan all positions of `cs` for a `\b w \b` regex match (`prev` is the
character immediately before the current position). -/
def containsWordAux (w : List Char) : Option Char → List Char → Bool
  | prev, [] => boundaryBefore prev && wordMatchAt w []
  | prev, c :: cs =>
    (boundaryBefore prev && wordMatchAt w (c :: cs)) || containsWordAux w (some c) cs

/-- Regex search `\b w \b` on `t`, as used with `re.search` in the sources. -/
def containsWord (t w : String) : Bool := containsWordAux w.data none t.data

/-- Python `dict` built from an assoc list by successive assignment: the
last binding of a key wins. -/
def pyDictLookup (l : List (String × α)) (k : String) : Option α :=
  l.reverse.lookup k

/-! ## services/timezone.py -/

/-- The six concrete US timezone values appearing in the static tables of
`services/timezone.py`.  The sources use the strings `"US/Eastern"` …
`"US/Alaska"`; `tzString` recovers them. -/
inductive TZ where
  | eastern | central | mountain | pacific | hawaii | alaska
deriving DecidableEq, Repr

/-- The string constant the Python tables store for each zone. -/
def tzString : TZ → String
  | .eastern => "US/Eastern"
  | .central => "US/Central"
  | .mountain => "US/Mountain"
  | .pacific => "US/Pacific"
  | .hawaii => "US/Hawaii"
  | .alaska => "US/Alaska"

/-- `STATE_TO_TZ` from `services/timezone.py` (keys are unique, so
assoc-list lookup agrees with the Python dict). -/
def STATE_TO_TZ : List (String × TZ) := [
    ("CT", TZ.eastern), ("DC", TZ.eastern), ("DE", TZ.eastern), ("FL",
    TZ.eastern), ("GA", TZ.eastern), ("IN", TZ.eastern), ("MA",
    TZ.eastern), ("MD", TZ.eastern), ("ME", TZ.eastern), ("MI",
    TZ.eastern), ("NC", TZ.eastern), ("NH", TZ.eastern), ("NJ",
    TZ.eastern), ("NY", TZ.eastern), ("OH", TZ.eastern), ("PA",
    TZ.eastern), ("RI", TZ.eastern), ("SC", TZ.eastern), ("VA",
    TZ.eastern), ("VT", TZ.eastern), ("WV", TZ.eastern), ("CONNECTICUT",
    TZ.eastern), ("DISTRICT OF COLUMBIA", TZ.eastern), ("DELAWARE",
    TZ.eastern), ("FLORIDA", TZ.eastern), ("GEORGIA", TZ.eastern),
    ("INDIANA", TZ.eastern), ("MASSACHUSETTS", TZ.eastern), ("MARYLAND",
    TZ.eastern), ("MAINE", TZ.eastern), ("MICHIGAN", TZ.eastern), ("NORTH
    CAROLINA", TZ.eastern), ("NEW HAMPSHIRE", TZ.eastern), ("NEW JERSEY",
    TZ.eastern), ("NEW YORK", TZ.eastern), ("OHIO", TZ.eastern),
    ("PENNSYLVANIA", TZ.eastern), ("RHODE ISLAND", TZ.eastern), ("SOUTH
    CAROLINA", TZ.eastern), ("VIRGINIA", TZ.eastern), ("VERMONT",
    TZ.eastern), ("WEST VIRGINIA", TZ.eastern), ("AL", TZ.central), ("AR",
    TZ.central), ("IA", TZ.central), ("IL", TZ.central), ("KS",
    TZ.central), ("KY", TZ.central), ("LA", TZ.central), ("MN",
    TZ.central), ("MO", TZ.central), ("MS", TZ.central), ("ND",
    TZ.central), ("NE", TZ.central), ("OK", TZ.central), ("SD",
    TZ.central), ("TN", TZ.central), ("TX", TZ.central), ("WI",
    TZ.central), ("ALABAMA", TZ.central), ("ARKANSAS", TZ.central),
    ("IOWA", TZ.central), ("ILLINOIS", TZ.central), ("KANSAS", TZ.central),
    ("KENTUCKY", TZ.central), ("LOUISIANA", TZ.central), ("MINNESOTA",
    TZ.central), ("MISSOURI", TZ.central), ("MISSISSIPPI", TZ.central),
    ("NORTH DAKOTA", TZ.central), ("NEBRASKA", TZ.central), ("OKLAHOMA",
    TZ.central), ("SOUTH DAKOTA", TZ.central), ("TENNESSEE", TZ.central),
    ("TEXAS", TZ.central), ("WISCONSIN", TZ.central), ("AZ", TZ.mountain),
    ("CO", TZ.mountain), ("ID", TZ.mountain), ("MT", TZ.mountain), ("NM",
    TZ.mountain), ("UT", TZ.mountain), ("WY", TZ.mountain), ("ARIZONA",
    TZ.mountain), ("COLORADO", TZ.mountain), ("IDAHO", TZ.mountain),
    ("MONTANA", TZ.mountain), ("NEW MEXICO", TZ.mountain), ("UTAH",
    TZ.mountain), ("WYOMING", TZ.mountain), ("CA", TZ.pacific), ("NV",
    TZ.pacific), ("OR", TZ.pacific), ("WA", TZ.pacific), ("HI", TZ.hawaii),
    ("CALIFORNIA", TZ.pacific), ("NEVADA", TZ.pacific), ("OREGON",
    TZ.pacific), ("WASHINGTON", TZ.pacific), ("HAWAII", TZ.hawaii), ("AK",
    TZ.alaska), ("ALASKA", TZ.alaska),
    ]

/-- `AREA_CODE_TO_TZ` from `services/timezone.py`.  The Python dict literal
lists `"385"` and `"720"` twice (once under Central, once under Mountain);
a Python dict keeps the *last* binding, so both resolve to Mountain and the
earlier Central entries are dropped here.  All other keys are unique. -/
def AREA_CODE_TO_TZ : List (String × TZ) := [
    ("201", TZ.eastern), ("202", TZ.eastern), ("203", TZ.eastern), ("207",
    TZ.eastern), ("212", TZ.eastern), ("215", TZ.eastern), ("216",
    TZ.eastern), ("239", TZ.eastern), ("240", TZ.eastern), ("248",
    TZ.eastern), ("267", TZ.eastern), ("301", TZ.eastern), ("302",
    TZ.eastern), ("305", TZ.eastern), ("313", TZ.eastern), ("315",
    TZ.eastern), ("321", TZ.eastern), ("336", TZ.eastern), ("347",
    TZ.eastern), ("352", TZ.eastern), ("386", TZ.eastern), ("401",
    TZ.eastern), ("404", TZ.eastern), ("407", TZ.eastern), ("410",
    TZ.eastern), ("412", TZ.eastern), ("413", TZ.eastern), ("434",
    TZ.eastern), ("440", TZ.eastern), ("443", TZ.eastern), ("484",
    TZ.eastern), ("508", TZ.eastern), ("513", TZ.eastern), ("516",
    TZ.eastern), ("518", TZ.eastern), ("540", TZ.eastern), ("551",
    TZ.eastern), ("561", TZ.eastern), ("570", TZ.eastern), ("571",
    TZ.eastern), ("585", TZ.eastern), ("586", TZ.eastern), ("603",
    TZ.eastern), ("609", TZ.eastern), ("610", TZ.eastern), ("614",
    TZ.eastern), ("617", TZ.eastern), ("631", TZ.eastern), ("646",
    TZ.eastern), ("678", TZ.eastern), ("703", TZ.eastern), ("704",
    TZ.eastern), ("706", TZ.eastern), ("716", TZ.eastern), ("718",
    TZ.eastern), ("732", TZ.eastern), ("740", TZ.eastern), ("754",
    TZ.eastern), ("757", TZ.eastern), ("770", TZ.eastern), ("772",
    TZ.eastern), ("774", TZ.eastern), ("781", TZ.eastern), ("786",
    TZ.eastern), ("802", TZ.eastern), ("803", TZ.eastern), ("804",
    TZ.eastern), ("813", TZ.eastern), ("814", TZ.eastern), ("828",
    TZ.eastern), ("845", TZ.eastern), ("848", TZ.eastern), ("856",
    TZ.eastern), ("857", TZ.eastern), ("860", TZ.eastern), ("862",
    TZ.eastern), ("863", TZ.eastern), ("904", TZ.eastern), ("908",
    TZ.eastern), ("910", TZ.eastern), ("914", TZ.eastern), ("917",
    TZ.eastern), ("919", TZ.eastern), ("941", TZ.eastern), ("954",
    TZ.eastern), ("973", TZ.eastern), ("978", TZ.eastern), ("205",
    TZ.central), ("210", TZ.central), ("214", TZ.central), ("217",
    TZ.central), ("219", TZ.central), ("224", TZ.central), ("225",
    TZ.central), ("228", TZ.central), ("254", TZ.central), ("256",
    TZ.central), ("262", TZ.central), ("281", TZ.central), ("309",
    TZ.central), ("312", TZ.central), ("314", TZ.central), ("316",
    TZ.central), ("317", TZ.central), ("318", TZ.central), ("319",
    TZ.central), ("320", TZ.central), ("331", TZ.central), ("334",
    TZ.central), ("346", TZ.central), ("361", TZ.central), ("402",
    TZ.central), ("405", TZ.central), ("409", TZ.central), ("414",
    TZ.central), ("417", TZ.central), ("430", TZ.central), ("432",
    TZ.central), ("456", TZ.central), ("469", TZ.central), ("479",
    TZ.central), ("501", TZ.central), ("502", TZ.central), ("504",
    TZ.central), ("507", TZ.central), ("512", TZ.central), ("515",
    TZ.central), ("531", TZ.central), ("534", TZ.central), ("563",
    TZ.central), ("573", TZ.central), ("601", TZ.central), ("608",
    TZ.central), ("612", TZ.central), ("615", TZ.central), ("618",
    TZ.central), ("620", TZ.central), ("630", TZ.central), ("636",
    TZ.central), ("641", TZ.central), ("651", TZ.central), ("660",
    TZ.central), ("662", TZ.central), ("682", TZ.central), ("701",
    TZ.central), ("708", TZ.central), ("713", TZ.central), ("715",
    TZ.central), ("717", TZ.central), ("731", TZ.central), ("737",
    TZ.central), ("743", TZ.central), ("763", TZ.central), ("769",
    TZ.central), ("773", TZ.central), ("779", TZ.central), ("806",
    TZ.central), ("815", TZ.central), ("816", TZ.central), ("817",
    TZ.central), ("830", TZ.central), ("832", TZ.central), ("847",
    TZ.central), ("850", TZ.central), ("870", TZ.central), ("872",
    TZ.central), ("901", TZ.central), ("903", TZ.central), ("913",
    TZ.central), ("915", TZ.central), ("920", TZ.central), ("936",
    TZ.central), ("940", TZ.central), ("952", TZ.central), ("956",
    TZ.central), ("972", TZ.central), ("979", TZ.central), ("303",
    TZ.mountain), ("307", TZ.mountain), ("385", TZ.mountain), ("406",
    TZ.mountain), ("435", TZ.mountain), ("480", TZ.mountain), ("505",
    TZ.mountain), ("520", TZ.mountain), ("575", TZ.mountain), ("602",
    TZ.mountain), ("623", TZ.mountain), ("719", TZ.mountain), ("720",
    TZ.mountain), ("801", TZ.mountain), ("928", TZ.mountain), ("206",
    TZ.pacific), ("209", TZ.pacific), ("213", TZ.pacific), ("253",
    TZ.pacific), ("310", TZ.pacific), ("323", TZ.pacific), ("360",
    TZ.pacific), ("408", TZ.pacific), ("415", TZ.pacific), ("424",
    TZ.pacific), ("425", TZ.pacific), ("442", TZ.pacific), ("503",
    TZ.pacific), ("509", TZ.pacific), ("510", TZ.pacific), ("530",
    TZ.pacific), ("541", TZ.pacific), ("559", TZ.pacific), ("562",
    TZ.pacific), ("619", TZ.pacific), ("626", TZ.pacific), ("628",
    TZ.pacific), ("650", TZ.pacific), ("657", TZ.pacific), ("661",
    TZ.pacific), ("669", TZ.pacific), ("702", TZ.pacific), ("707",
    TZ.pacific), ("714", TZ.pacific), ("725", TZ.pacific), ("747",
    TZ.pacific), ("760", TZ.pacific), ("775", TZ.pacific), ("805",
    TZ.pacific), ("818", TZ.pacific), ("831", TZ.pacific), ("858",
    TZ.pacific), ("909", TZ.pacific), ("916", TZ.pacific), ("925",
    TZ.pacific), ("949", TZ.pacific), ("951", TZ.pacific), ("971",
    TZ.pacific),
    ]

/-- `TZ_LABELS` from `services/timezone.py`. -/
def TZ_LABELS : List (String × String) :=
  [("US/Eastern", "ET"), ("US/Central", "CT"), ("US/Mountain", "MT"),
   ("US/Pacific", "PT"), ("US/Hawaii", "HT"), ("US/Alaska", "AKT")]

/-- `tz_label` from `services/timezone.py`. -/
def tz_label (tz : String) : String := (TZ_LABELS.lookup tz).getD tz

/-- The `contact_props` dict fields read by `resolve_timezone` and the
contact-level fields used by `app.py`; missing dict keys are modelled as
the empty string (Python falls back to `""` via `or ""` / `.get`). -/
structure Contact where
  id : String := ""
  firstname : String := ""
  lastname : String := ""
  email : String := ""
  company : String := ""
  jobtitle : String := ""
  phone : String := ""
  mobilephone : String := ""
  city : String := ""
  state : String := ""
  country : String := ""
  hs_timezone : String := ""
deriving DecidableEq, Repr

/-- Phone-based lookup: the body of the `for phone_field in [...]` loop in
`resolve_timezone`: strip the field, drop non-digits, and only when at
least 10 digits remain, drop a leading country `1` from an 11-digit
string and look the first three digits up in `AREA_CODE_TO_TZ`. -/
def phone_tz (phone : String) : Option TZ :=
  let digits := (pyStrip phone).data.filter Char.isDigit
  if digits.length ≥ 10 then
    let digits := if digits.head? == some '1' && digits.length == 11
                  then digits.drop 1 else digits
    AREA_CODE_TO_TZ.lookup (String.mk (digits.take 3))
  else none

/-- `resolve_timezone` from `services/timezone.py`: priority
`hs_timezone` hint > state > mobile phone area code > phone area code,
with `"UNKNOWN"` as the fallback. -/
def resolve_timezone (p : Contact) : String :=
  let hs_tz := pyStrip p.hs_timezone
  if hs_tz ≠ "" then hs_tz
  else
    let state := pyUpper (pyStrip p.state)
    match (if state ≠ "" then STATE_TO_TZ.lookup state else none) with
    | some tz => tzString tz
    | none =>
      match phone_tz p.mobilephone with
      | some tz => tzString tz
      | none =>
        match phone_tz p.phone with
        | some tz => tzString tz
        | none => "UNKNOWN"

/-! ## services/call_sheet.py -/

/-- `title_seniority` from `services/call_sheet.py` (lower = more senior).
The C-level keywords use word-boundary regexes; `SVP`, `SENIOR VICE`,
`VICE PRESIDENT`, `DIRECTOR`, `HEAD OF` and `MANAGER` are plain Python
substring tests, exactly as in the source. -/
def title_seniority (title : String) : Nat :=
  if title == "" then 99
  else
    let t := pyUpper title
    if containsWord t "CHIEF" ||
       (containsWord t "CEO" || containsWord t "CFO" || containsWord t "CTO" ||
        containsWord t "CRO" || containsWord t "CMO" || containsWord t "COO" ||
        containsWord t "CIO") then 0
    else if (containsWord t "FOUNDER" || containsWord t "OWNER" ||
             containsWord t "PRESIDENT") && !containsSub t "VICE" then 0
    else if containsSub t "SVP" || containsSub t "SENIOR VICE" then 1
    else if containsWord t "VP" || containsSub t "VICE PRESIDENT" then 1
    else if containsSub t "DIRECTOR" || containsSub t "HEAD OF" then 2
    else if containsSub t "MANAGER" || containsWord t "LEAD" then 3
    else 4

/-- The ET hour ranges of the 11 entries of `TIME_BLOCKS`
(labels, colors and descriptions are display-only and not modelled). -/
def TIME_BLOCKS : List (Nat × Nat) :=
  [(8, 9), (9, 10), (10, 11), (11, 12), (12, 13), (13, 15),
   (15, 16), (16, 17), (17, 18), (18, 19), (19, 20)]

/-- `TZ_TO_BLOCKS` from `services/call_sheet.py`:
timezone → list of `(et_block_index, priority)`. -/
def TZ_TO_BLOCKS : List (String × List (Nat × Nat)) :=
  [("US/Eastern", [(0, 0), (1, 0), (6, 1), (7, 1)]),
   ("US/Central", [(1, 0), (2, 0), (7, 1), (8, 1)]),
   ("US/Mountain", [(2, 0), (3, 0), (8, 1), (9, 1)]),
   ("US/Pacific", [(3, 0), (4, 0), (9, 1), (10, 1)]),
   ("US/Hawaii", [(4, 0)]),
   ("US/Alaska", [(3, 0), (4, 0)])]

/-- The fields of a `contacts_with_data` item that `build_call_sheet`
reads: `item["tz"]`, `item["contact"]["id"]` and
`item["contact"]["properties"]["jobtitle"]`. -/
structure SheetItem where
  cid : String := ""
  tz : String := ""
  jobtitle : String := ""
deriving DecidableEq, Repr

/-- Sort key used for every block: `title_seniority` of the job title. -/
def itemRank (x : SheetItem) : Nat := title_seniority x.jobtitle

/-- Insert `x` after every element of strictly smaller rank and before the
first element of greater-or-equal rank. -/
def insertByRank (r : α → Nat) (x : α) : List α → List α
  | [] => [x]
  | y :: ys => if r x ≤ r y then x :: y :: ys else y :: insertByRank r x ys

/-- Stable sort ascending by `r`.  Python `list.sort(key=r)` is a stable
sort by this key; a stable sort of a list by a key is unique, and
`sortByRank_pairwise` / `sortByRank_filter` below prove this function is
that stable sort, so it is *the* model of the Python call. -/
def sortByRank (r : α → Nat) : List α → List α
  | [] => []
  | x :: xs => insertByRank r x (sortByRank r xs)

/-- The placement loop of `build_call_sheet`: items whose timezone is
`"UNKNOWN"` or absent from `TZ_TO_BLOCKS` are appended to the `unknowns`
bucket, every other item is appended to block `tz_blocks[0][0]`.
(The source also maintains a `placed` id-set that is never read; it is
not modelled.) -/
def placeStep (acc : List (List SheetItem) × List SheetItem) (item : SheetItem) :
    List (List SheetItem) × List SheetItem :=
  let (blocks, unknowns) := acc
  if item.tz == "UNKNOWN" then (blocks, unknowns ++ [item])
  else
    match TZ_TO_BLOCKS.lookup item.tz with
    | none => (blocks, unknowns ++ [item])
    | some tz_blocks =>
      let first_block := (tz_blocks.headD (0, 0)).1
      (blocks.set first_block ((blocks.getD first_block []) ++ [item]), unknowns)

/-- Raw (pre-sort) placement: `blocks = {i: [] for i in range(len(TIME_BLOCKS))}`
followed by the placement loop. -/
def placeAll (items : List SheetItem) : List (List SheetItem) × List SheetItem :=
  items.foldl placeStep (List.replicate TIME_BLOCKS.length [], [])

/-- `build_call_sheet` from `services/call_sheet.py`: place every item,
then sort each block and the unknowns bucket by `title_seniority`. -/
def build_call_sheet (items : List SheetItem) :
    List (List SheetItem) × List SheetItem :=
  let (blocks, unknowns) := placeAll items
  (blocks.map (sortByRank itemRank), sortByRank itemRank unknowns)

/-! ## services/sessions.py -/

/-- One entry of a session's `contacts` list, as written by `app.py`
(`_save_progress` and the final `session_data`). -/
structure SessContact where
  contact_id : String := ""
  name : String := ""
  company : String := ""
  note_html : String := ""
  script_content : String := ""
  tz : String := ""
deriving DecidableEq, Repr

/-- A persisted Oracle session.  Missing JSON keys are modelled by the
defaults Python falls back to (`.get(key, "")` / `.get("contacts")`);
`session_id = ""` models a missing `session_id` key. -/
structure Session where
  session_id : String := ""
  segment : String := ""
  campaign : String := ""
  calling_date : String := ""
  generation_complete : Bool := false
  contacts : List SessContact := []
  failed_contact_ids : List String := []
  approval_errors : Nat := 0
deriving DecidableEq, Repr

/-- One file of the `sessions/` directory: name, `os.path.getmtime`
modification stamp, and parsed JSON content.  Files whose JSON fails to
parse are skipped by every reader (`except Exception: continue`) and are
modelled as absent. -/
structure DiskEntry where
  fname : String := ""
  mtime : Nat := 0
  data : Session := {}
deriving DecidableEq, Repr

/-- The dual-layer store: the in-memory `_sessions` dict (assoc list with
unique keys) and the `sessions/` directory. -/
structure StoreState where
  mem : List (String × Session) := []
  disk : List DiskEntry := []
deriving DecidableEq, Repr

/-- `get_session` from `services/sessions.py` (the deep copy is identity
for immutable Lean values). -/
def get_session (st : StoreState) (key : String) : Option Session :=
  st.mem.lookup key

/-- `set_session`: dict assignment, replacing any previous binding. -/
def set_session (st : StoreState) (key : String) (data : Session) : StoreState :=
  { st with mem := (key, data) :: st.mem.filter (fun kv => kv.1 ≠ key) }

/-- `delete_session`: `dict.pop(key, None)`; the disk is untouched. -/
def delete_session (st : StoreState) (key : String) : StoreState :=
  { st with mem := st.mem.filter (fun kv => kv.1 ≠ key) }

/-- File name used by the prep-session disk I/O helpers. -/
def prep_fname (session_id : String) : String :=
  "prep_" ++ session_id ++ ".json"

/-- `save_session_to_disk`: atomic overwrite of
`sessions/prep_<session_id>.json` with a fresh modification time. -/
def save_session_to_disk (disk : List DiskEntry) (session_id : String)
    (data : Session) (now : Nat) : List DiskEntry :=
  disk.filter (fun e => e.fname ≠ prep_fname session_id) ++
    [{ fname := prep_fname session_id, mtime := now, data := data }]

/-- Does `cs` end with `w`? -/
def listEndsWith (cs w : List Char) : Bool :=
  listStartsWith cs.reverse w.reverse

/-- The per-file filter and match conditions of the `find_resumable_session`
loop: a `prep_*.json` file whose `segment` and `campaign` match after
`.lower().strip()`, whose `calling_date` matches after `.strip()` alone,
and whose `contacts` list is truthy (non-empty). -/
def resumableMatch (segment campaign calling_date : String) (e : DiskEntry) : Bool :=
  listStartsWith e.fname.data "prep_".data &&
  listEndsWith e.fname.data ".json".data &&
  pyStrip (pyLower e.data.segment) == pyStrip (pyLower segment) &&
  pyStrip (pyLower e.data.campaign) == pyStrip (pyLower campaign) &&
  pyStrip e.data.calling_date == pyStrip calling_date &&
  !e.data.contacts.isEmpty

/-- One iteration of the `find_resumable_session` scan: replace the best
candidate when this entry matches and has a strictly greater
modification time. -/
def frsStep (segment campaign calling_date : String)
    (acc : Option (Session × Nat)) (e : DiskEntry) : Option (Session × Nat) :=
  if resumableMatch segment campaign calling_date e then
    match acc with
    | none => some (e.data, e.mtime)
    | some (_, best_time) =>
      if e.mtime > best_time then some (e.data, e.mtime) else acc
  else acc

/-- `find_resumable_session` from `services/sessions.py`: scan the
directory listing, keep the matching file with the strictly greatest
modification time (first such file on ties), and return its session.
The Python `(session_id, data)` pair is modelled as `Option Session`;
the id component is always `data.get("session_id")`. -/
def find_resumable_session (disk : List DiskEntry)
    (segment campaign calling_date : String) : Option Session :=
  (disk.foldl (frsStep segment campaign calling_date) none).map (fun b => b.1)

/-! ## services/retry.py -/

/-- The exception classes relevant to `retry_request`: the three members
of `RETRYABLE_EXCEPTIONS`, and `other` for any exception the handler does
not catch. -/
inductive ExcKind where
  | connection | timeout | chunked | other
deriving DecidableEq, Repr

/-- Outcome of one call of `request_func`: a response status, or a raised
exception. -/
inductive ReqOutcome where
  | ok (status : Nat)
  | exc (e : ExcKind)
deriving DecidableEq, Repr

/-- Observable result of `retry_request`: a returned response, a raised
`requests.HTTPError` from `raise_for_status`, a re-raised exception, or
the implicit `None` return when the loop falls through. -/
inductive RetryResult where
  | success (status : Nat)
  | httpError (status : Nat)
  | raised (e : ExcKind)
  | noResult
deriving DecidableEq, Repr

/-- `RETRYABLE_STATUS_CODES` from `services/retry.py`. -/
def RETRYABLE_STATUS_CODES : List Nat := [429, 500, 502, 503, 504]

/-- Membership in `RETRYABLE_EXCEPTIONS`. -/
def retryableExc : ExcKind → Bool
  | .connection => true
  | .timeout => true
  | .chunked => true
  | .other => false

/-- Does `resp.raise_for_status()` raise?  Exactly for 4xx and 5xx. -/
def raiseForStatus (status : Nat) : Bool := 400 ≤ status && status < 600

/-- The `for attempt in range(max_retries + 1)` loop of `retry_request`.
`f attempt` is the outcome of the attempt-th call of `request_func`,
`fuel` is the number of remaining iterations (initially
`max_retries + 1`), and `last` is `last_exc`.  The returned `Nat` is the
number of calls of `request_func` that were made. -/
def retryGo (f : Nat → ReqOutcome) (max_retries : Nat) :
    Nat → Nat → Option ExcKind → RetryResult × Nat
  | attempt, 0, last =>
    (match last with
     | some e => .raised e
     | none => .noResult, attempt)
  | attempt, fuel + 1, last =>
    match f attempt with
    | .ok status =>
      if status < 400 then (.success status, attempt + 1)
      else if status < 500 && status ≠ 429 then (.httpError status, attempt + 1)
      else if status ∈ RETRYABLE_STATUS_CODES then
        if attempt == max_retries then (.httpError status, attempt + 1)
        else retryGo f max_retries (attempt + 1) fuel last
      else if raiseForStatus status then (.httpError status, attempt + 1)
      else retryGo f max_retries (attempt + 1) fuel last
    | .exc e =>
      if retryableExc e then
        if attempt == max_retries then (.raised e, attempt + 1)
        else retryGo f max_retries (attempt + 1) fuel (some e)
      else (.raised e, attempt + 1)

/-- `retry_request` from `services/retry.py` (delays are timing-only and
not modelled). -/
def retry_request (f : Nat → ReqOutcome) (max_retries : Nat := 3) :
    RetryResult × Nat :=
  retryGo f max_retries 0 (max_retries + 1) none

/-! ## app.py — the generate route -/

/-- Fields of the email dict returned by `search_emails_for_contact` that
`generate` reads. -/
structure EmailData where
  subject : String := ""
  body_html : String := ""
  body_text : String := ""
deriving DecidableEq, Repr

/-- External effects of the Phase-2 loop, abstracted at the API boundary
as oracle functions.  Filter A (the associated-companies subscription
loop) is abstracted to its outcome: `.error ()` for an exception anywhere
in the block (the loop warns and falls through), `.ok true` for an active
subscriber with positive MRR, `.ok false` otherwise.  `emailSearch`
returns `.error ()` for a raised exception and `.ok none` for a falsy
result.  `generateScript` is the Octave call together with the
`script_content` extraction; `.error ()` is any of the three handled
exception kinds (timeout, connection error, other), which all skip the
contact identically.  `formatNote` is `format_note_html props campaign ·`. -/
structure GenEnv where
  isSubscriberResult : String → Except Unit Bool
  emailSearch : String → Except Unit (Option EmailData)
  hasPrep : String → Bool
  generateScript : Contact → EmailData → Except Unit String
  formatNote : Contact → String → String

/-- One element of `prepped_contacts`. -/
structure Prepped where
  contact : Contact
  tz : String
  tz_lbl : String
  script_content : String
  email_data : Option EmailData
  note_html : String
deriving DecidableEq

/-- The `cached_scripts` dict built at the top of `stream()`: prior
contacts keyed by `contact_id`, keeping only those with a truthy
`script_content`. -/
def cached_scripts (prev : Option Session) : List (String × SessContact) :=
  match prev with
  | none => []
  | some s => (s.contacts.filter (fun c => c.script_content ≠ "")).map
      (fun c => (c.contact_id, c))

/-- Session-id choice of the `generate` route:
`prev_session_id or str(uuid.uuid4())[:8]` when a resumable session was
found, a fresh id otherwise (`session_id = ""` models a missing key,
which is falsy). -/
def choose_session_id (prev : Option Session) (fresh : String) : String :=
  match prev with
  | some s => if s.session_id == "" then fresh else s.session_id
  | none => fresh

/-- The filter+generate path of the Phase-2 loop for one non-cached
contact: Filter A (subscriber skip; exceptions warn and fall through),
Filter B (must have an outbound email; exceptions count as errors),
Filter C (existing-prep skip, only when `skip_existing`), then the Octave
generation call.  Returns the `prepped_contacts` entry (if any) and
whether `generateScript` was invoked. -/
def processFresh (env : GenEnv) (skip_existing : Bool) (c : Contact) :
    Option Prepped × Bool :=
  match env.isSubscriberResult c.id with
  | .ok true => (none, false)
  | _ =>
    match env.emailSearch c.id with
    | .error _ => (none, false)
    | .ok none => (none, false)
    | .ok (some email_data) =>
      if skip_existing && env.hasPrep c.id then (none, false)
      else
        match env.generateScript c email_data with
        | .error _ => (none, true)
        | .ok script_content =>
          let tz := resolve_timezone c
          (some { contact := c, tz := tz, tz_lbl := tz_label tz,
                  script_content := script_content,
                  email_data := some email_data,
                  note_html := env.formatNote c script_content }, true)

/-- One iteration of the Phase-2 loop: the resume check first (a cached
contact is re-appended with its cached `script_content`, a freshly
resolved timezone and a freshly formatted note, and nothing else runs),
otherwise the full filter+generate path. -/
def processContact (env : GenEnv) (skip_existing : Bool)
    (cache : List (String × SessContact)) (c : Contact) :
    Option Prepped × Bool :=
  match pyDictLookup cache c.id with
  | some cached =>
    let tz := resolve_timezone c
    (some { contact := c, tz := tz, tz_lbl := tz_label tz,
            script_content := cached.script_content,
            email_data := some {},
            note_html := env.formatNote c cached.script_content }, false)
  | none => processFresh env skip_existing c

/-- The whole Phase-2 loop: fold over the pulled contacts, accumulating
`prepped_contacts` and the ids for which the Octave generation step was
invoked. -/
def run_generate (env : GenEnv) (skip_existing : Bool) (prev : Option Session)
    (contacts : List Contact) : List Prepped × List String :=
  let cache := cached_scripts prev
  contacts.foldl (fun acc c =>
    let r := processContact env skip_existing cache c
    (acc.1 ++ r.1.toList, acc.2 ++ if r.2 then [c.id] else [])) ([], [])

/-- Projection of a prepped contact to the session `contacts` entry
written by `_save_progress` and by the final `session_data`. -/
def preppedToSess (p : Prepped) : SessContact :=
  { contact_id := p.contact.id,
    name := pyStrip (p.contact.firstname ++ " " ++ p.contact.lastname),
    company := p.contact.company,
    note_html := p.note_html,
    script_content := p.script_content,
    tz := p.tz_lbl }

/-! ## app.py — the approve route -/

/-- The pending list of an approve run: when the session carries a
non-empty `failed_contact_ids`, only the contacts in that set are
processed, otherwise all of them. -/
def approve_pending (sess : Session) : List SessContact :=
  if sess.failed_contact_ids ≠ [] then
    sess.contacts.filter (fun c => sess.failed_contact_ids.contains c.contact_id)
  else sess.contacts

/-- The write loop of `approve`: `writeOk cid` tells whether
`create_note_for_contact` succeeds for that contact id.  Returns
`(success, errors, failed_contact_ids)` in loop order. -/
def approveLoop (writeOk : String → Bool) (pending : List SessContact) :
    Nat × Nat × List String :=
  pending.foldl (fun acc c =>
    if writeOk c.contact_id then (acc.1 + 1, acc.2.1, acc.2.2)
    else (acc.1, acc.2.1 + 1, acc.2.2 ++ [c.contact_id])) (0, 0, [])

/-- Store effect of one approve run over session `sid` with data `sess`:
with zero errors the session is deleted from the in-memory store; with
at least one error the session is written back (memory and disk) with
`failed_contact_ids` and `approval_errors` recorded. -/
def approve_effect (st : StoreState) (sid : String) (sess : Session)
    (writeOk : String → Bool) (now : Nat) : StoreState :=
  let r := approveLoop writeOk (approve_pending sess)
  if r.2.1 == 0 then delete_session st sid
  else
    let sess' := { sess with failed_contact_ids := r.2.2,
                             approval_errors := r.2.1 }
    let st' := set_session st sid sess'
    { st' with disk := save_session_to_disk st'.disk sid sess' now }

/-! ## General lemmas about the stable sort -/

theorem mem_insertByRank {r : α → Nat} {x a : α} {l : List α} :
    a ∈ insertByRank r x l ↔ a = x ∨ a ∈ l := by
  induction l with
  | nil => simp [insertByRank]
  | cons y ys ih =>
    by_cases h : r x ≤ r y
    · simp [insertByRank, h]
    · simp [insertByRank, h, ih]
      tauto

theorem insertByRank_pairwise {r : α → Nat} {x : α} {l : List α}
    (h : l.Pairwise (fun a b => r a ≤ r b)) :
    (insertByRank r x l).Pairwise (fun a b => r a ≤ r b) := by
  induction l with
  | nil => simp [insertByRank]
  | cons y ys ih =>
    rcases List.pairwise_cons.mp h with ⟨hy, hys⟩
    by_cases hxy : r x ≤ r y
    · simp only [insertByRank, if_pos hxy]
      refine List.pairwise_cons.mpr ⟨?_, h⟩
      intro b hb
      rcases List.mem_cons.mp hb with rfl | hb
      · exact hxy
      · exact le_trans hxy (hy _ hb)
    · simp only [insertByRank, if_neg hxy]
      refine List.pairwise_cons.mpr ⟨?_, ih hys⟩
      intro b hb
      rcases mem_insertByRank.mp hb with rfl | hb
      · omega
      · exact hy _ hb

theorem sortByRank_pairwise {r : α → Nat} (l : List α) :
    (sortByRank r l).Pairwise (fun a b => r a ≤ r b) := by
  induction l with
  | nil => simp [sortByRank]
  | cons x xs ih => exact insertByRank_pairwise ih

theorem insertByRank_filter {r : α → Nat} (x : α) (k : Nat) (l : List α) :
    (insertByRank r x l).filter (fun y => r y == k) =
      if r x == k then x :: l.filter (fun y => r y == k)
      else l.filter (fun y => r y == k) := by
  induction l with
  | nil =>
    by_cases hx : r x = k <;> simp [insertByRank, List.filter_cons, hx]
  | cons y ys ih =>
    by_cases hxy : r x ≤ r y
    · simp only [insertByRank, if_pos hxy]
      by_cases hx : r x = k <;> simp [List.filter_cons, hx]
    · simp only [insertByRank, if_neg hxy]
      by_cases hxk : r x = k
      · have hyk : r y ≠ k := by omega
        simp [List.filter_cons, ih, hxk, hyk]
      · by_cases hyk : r y = k <;>
          simp [List.filter_cons, ih, hxk, hyk]

theorem sortByRank_filter {r : α → Nat} (k : Nat) (l : List α) :
    (sortByRank r l).filter (fun y => r y == k) =
      l.filter (fun y => r y == k) := by
  induction l with
  | nil => simp [sortByRank]
  | cons x xs ih =>
    rw [sortByRank, insertByRank_filter]
    by_cases hx : r x = k <;> simp [List.filter_cons, hx, ih]

theorem length_insertByRank {r : α → Nat} (x : α) (l : List α) :
    (insertByRank r x l).length = l.length + 1 := by
  induction l with
  | nil => simp [insertByRank]
  | cons y ys ih =>
    by_cases hxy : r x ≤ r y <;> simp [insertByRank, hxy, ih]

theorem length_sortByRank {r : α → Nat} (l : List α) :
    (sortByRank r l).length = l.length := by
  induction l with
  | nil => simp [sortByRank]
  | cons x xs ih => simp [sortByRank, length_insertByRank, ih]

theorem mem_sortByRank {r : α → Nat} {a : α} {l : List α} :
    a ∈ sortByRank r l ↔ a ∈ l := by
  induction l with
  | nil => simp [sortByRank]
  | cons x xs ih => simp [sortByRank, mem_insertByRank, ih]

/-! ## Claim C5 — title_seniority word boundaries -/

/-- Does any of the tier-0 (C-level / founder) keywords occur in the
uppercased title at a regex word boundary? -/
def tierZeroWordMatch (title : String) : Bool :=
  let u := pyUpper title
  containsWord u "CHIEF" || containsWord u "CEO" || containsWord u "CFO" ||
  containsWord u "CTO" || containsWord u "CRO" || containsWord u "CMO" ||
  containsWord u "COO" || containsWord u "CIO" || containsWord u "FOUNDER" ||
  containsWord u "OWNER" || containsWord u "PRESIDENT"

/-- C5 counterexample: the title "Micromanager" is ranked tier 3 although
"MANAGER" occurs in it only as a substring of a larger word, never at a
word boundary — so `title_seniority` does not match all tier keywords at
word boundaries only, refuting the claim as stated. -/
theorem title_seniority_substring_cex :
    title_seniority "Micromanager" = 3 ∧
    containsWord (pyUpper "Micromanager") "MANAGER" = false ∧
    containsSub (pyUpper "Micromanager") "MANAGER" = true := by
  decide

/-- C5 (corrected): word-boundary matching protects exactly the tier-0
keywords — a tier-0 rank is only ever produced by a word-boundary match
of a C-level/founder keyword, so a keyword inside a larger word never
yields tier 0 — and `rank "Director of Engineering"` is 2, not 0.
(The `SVP`, `SENIOR VICE`, `VICE PRESIDENT`, `DIRECTOR`, `HEAD OF` and
`MANAGER` checks are plain substring tests.) -/
theorem title_seniority_amended :
    (∀ t, title_seniority t = 0 → tierZeroWordMatch t = true) ∧
    title_seniority "Director of Engineering" = 2 := by
  constructor
  · intro t h
    by_contra hz
    have hz' : tierZeroWordMatch t = false := by
      revert hz
      cases tierZeroWordMatch t <;> simp
    unfold tierZeroWordMatch at hz'
    simp only [Bool.or_eq_false_iff] at hz'
    obtain ⟨⟨⟨⟨⟨⟨⟨⟨⟨⟨w1, w2⟩, w3⟩, w4⟩, w5⟩, w6⟩, w7⟩, w8⟩, w9⟩, w10⟩, w11⟩ := hz'
    simp only [title_seniority, w1, w2, w3, w4, w5, w6, w7, w8, w9, w10, w11,
      Bool.or_self, Bool.false_and, Bool.or_false, Bool.false_or,
      if_false, Bool.false_eq_true] at h
    split_ifs at h
  · decide

/-- C5 witness: the amended theorem applied at the concrete titles "CTO"
and "Director of Engineering". -/
theorem title_seniority_amended_witness :
    tierZeroWordMatch "CTO" = true ∧
    title_seniority "Director of Engineering" = 2 :=
  ⟨title_seniority_amended.1 "CTO" (by decide), title_seniority_amended.2⟩

/-! ## Claim C7 — resolve_timezone codomain -/

/-- The fixed enumeration of resolved-timezone strings named by the spec. -/
def TZ_ENUM : List String :=
  ["US/Eastern", "US/Central", "US/Mountain", "US/Pacific",
   "US/Hawaii", "US/Alaska", "UNKNOWN"]

/-- C7 counterexample: a contact carrying an arbitrary non-empty
`hs_timezone` hint gets it back verbatim, so `resolve_timezone` does not
always return a member of the fixed enumeration. -/
theorem resolve_timezone_verbatim_cex :
    resolve_timezone { hs_timezone := "Zeus/Olympus" } = "Zeus/Olympus" ∧
    "Zeus/Olympus" ∉ TZ_ENUM := by
  constructor
  · rfl
  · decide

/-- C7 (corrected): when the contact has no explicit timezone hint
(empty after trim), `resolve_timezone` returns a member of the fixed
enumeration; a non-empty hint is returned verbatim and may lie outside
it. -/
theorem resolve_timezone_enum (p : Contact)
    (h : pyStrip p.hs_timezone = "") : resolve_timezone p ∈ TZ_ENUM := by
  unfold resolve_timezone
  rw [h]
  simp only [ne_eq, not_true_eq_false, if_false]
  split
  · rename_i tz _
    cases tz <;> decide
  · split
    · rename_i tz _
      cases tz <;> decide
    · split
      · rename_i tz _
        cases tz <;> decide
      · decide

/-- C7 witness: the corrected theorem at the empty contact, whose
resolved timezone is the `"UNKNOWN"` fallback. -/
theorem resolve_timezone_enum_witness :
    pyStrip ("" : String) = "" ∧ resolve_timezone {} ∈ TZ_ENUM :=
  ⟨rfl, resolve_timezone_enum {} rfl⟩

/-! ## Claim C6 — phone area-code resolution -/

/-- Modelled from the spec wording of the phone step, as amended: strip
all non-digit characters; only when at least 10 digits remain, drop a
leading country digit `1` from an exactly-11-digit string, take the first
3 digits as the area code and look it up. -/
def phoneTzSpec (phone : String) : Option TZ :=
  let digits := phone.data.filter Char.isDigit
  if digits.length ≥ 10 then
    let digits := if digits.head? == some '1' && digits.length == 11
                  then digits.drop 1 else digits
    AREA_CODE_TO_TZ.lookup (String.mk (digits.take 3))
  else none

/-- Modelled from the spec wording: the phone-based branch of
`resolve_timezone`, mobile field first, then primary, first successful
lookup winning, `"UNKNOWN"` if both fail. -/
def areaCodeResolveSpec (mobile primary : String) : String :=
  match phoneTzSpec mobile with
  | some tz => tzString tz
  | none =>
    match phoneTzSpec primary with
    | some tz => tzString tz
    | none => "UNKNOWN"

/-- The phone procedure exactly as the claim states it, without the
10-digit minimum the code enforces. -/
def phoneTzClaim (phone : String) : Option TZ :=
  let digits := phone.data.filter Char.isDigit
  let digits := if digits.head? == some '1' && digits.length == 11
                then digits.drop 1 else digits
  AREA_CODE_TO_TZ.lookup (String.mk (digits.take 3))

theorem filter_dropWhile {p q : α → Bool} (h : ∀ a, q a = true → p a = false) :
    ∀ l : List α, (l.dropWhile q).filter p = l.filter p := by
  intro l
  induction l with
  | nil => rfl
  | cons a l ih =>
    by_cases ha : q a = true
    · rw [List.dropWhile_cons_of_pos ha, ih, List.filter_cons, h a ha]
      simp
    · rw [List.dropWhile_cons_of_neg ha]

theorem pySpace_not_digit : ∀ c, pySpace c = true → c.isDigit = false := by
  intro c hc
  simp only [pySpace, Bool.or_eq_true, beq_iff_eq] at hc
  rcases hc with ((((rfl | rfl) | rfl) | rfl) | rfl) | rfl <;> decide

theorem filter_digit_pyStrip (s : String) :
    (pyStrip s).data.filter Char.isDigit = s.data.filter Char.isDigit := by
  show ((((s.data.dropWhile pySpace).reverse.dropWhile pySpace).reverse).filter
      Char.isDigit) = s.data.filter Char.isDigit
  rw [List.filter_reverse, filter_dropWhile pySpace_not_digit,
    List.filter_reverse, List.reverse_reverse, filter_dropWhile pySpace_not_digit]

theorem phone_tz_eq_spec (s : String) : phone_tz s = phoneTzSpec s := by
  unfold phone_tz phoneTzSpec
  rw [filter_digit_pyStrip]

/-- C6 counterexample: for a contact whose only populated field is the
mobile phone `"(415) 555"`, the claim's procedure (strip non-digits, take
the first three digits, look them up) yields Pacific, but the code
requires at least 10 digits and returns `"UNKNOWN"`.  The claim as stated
omits this 10-digit minimum. -/
theorem resolve_timezone_short_phone_cex :
    phoneTzClaim "(415) 555" = some TZ.pacific ∧
    resolve_timezone { mobilephone := "(415) 555" } = "UNKNOWN" := by
  constructor
  · rfl
  · rfl

/-- C6 (corrected): with no explicit timezone hint and no recognized
state, `resolve_timezone` follows the spec's phone procedure amended with
the 10-digit minimum: mobile field first, then primary; for each, strip
non-digits, and when at least 10 digits remain, drop a leading `1` from
an 11-digit string, take the first 3 digits and look them up, the first
successful lookup winning. -/
theorem resolve_timezone_area_code (p : Contact)
    (h1 : pyStrip p.hs_timezone = "")
    (h2 : STATE_TO_TZ.lookup (pyUpper (pyStrip p.state)) = none) :
    resolve_timezone p = areaCodeResolveSpec p.mobilephone p.phone := by
  unfold resolve_timezone areaCodeResolveSpec
  rw [h1]
  simp only [ne_eq, not_true_eq_false, if_false]
  have hst : (if pyUpper (pyStrip p.state) ≠ "" then
      STATE_TO_TZ.lookup (pyUpper (pyStrip p.state)) else none) = none := by
    split
    · exact h2
    · rfl
  rw [hst, phone_tz_eq_spec, phone_tz_eq_spec]

/-- C6 witness: the corrected theorem at a contact whose mobile phone is
`"+1 (415) 555-0100"`, which resolves to Pacific. -/
theorem resolve_timezone_area_code_witness :
    pyStrip ("" : String) = "" ∧
    STATE_TO_TZ.lookup (pyUpper (pyStrip "")) = none ∧
    resolve_timezone { mobilephone := "+1 (415) 555-0100" } =
      areaCodeResolveSpec "+1 (415) 555-0100" "" ∧
    resolve_timezone { mobilephone := "+1 (415) 555-0100" } = "US/Pacific" :=
  ⟨rfl, by decide,
   resolve_timezone_area_code { mobilephone := "+1 (415) 555-0100" } rfl (by decide),
   by rfl⟩

/-! ## Claim C9 — retry_request -/

theorem retryGo_const_status {s m : Nat} (hs : s ∈ RETRYABLE_STATUS_CODES) :
    ∀ fuel attempt last, attempt + fuel = m + 1 → 0 < fuel →
    retryGo (fun _ => .ok s) m attempt fuel last = (.httpError s, m + 1) := by
  have hs' : s = 429 ∨ s = 500 ∨ s = 502 ∨ s = 503 ∨ s = 504 := by
    simpa [RETRYABLE_STATUS_CODES] using hs
  have hs4 : ¬ s < 400 := by omega
  have hs5 : ¬ (s < 500 ∧ s ≠ 429) := by omega
  intro fuel
  induction fuel with
  | zero => omega
  | succ n ih =>
    intro attempt last hsum _
    by_cases hlast : attempt = m
    · simp [retryGo, hs4, hs5, hs, hlast]
    · have hstep : retryGo (fun _ => .ok s) m attempt (n + 1) last =
          retryGo (fun _ => .ok s) m (attempt + 1) n last := by
        simp [retryGo, hs4, hs5, hs, hlast]
      rw [hstep]
      exact ih (attempt + 1) last (by omega) (by omega)

theorem retryGo_const_exc {e : ExcKind} {m : Nat} (he : retryableExc e = true) :
    ∀ fuel attempt last, attempt + fuel = m + 1 → 0 < fuel →
    retryGo (fun _ => .exc e) m attempt fuel last = (.raised e, m + 1) := by
  intro fuel
  induction fuel with
  | zero => omega
  | succ n ih =>
    intro attempt last hsum _
    by_cases hlast : attempt = m
    · simp [retryGo, he, hlast]
    · have hstep : retryGo (fun _ => .exc e) m attempt (n + 1) last =
          retryGo (fun _ => .exc e) m (attempt + 1) n (some e) := by
        simp [retryGo, he, hlast]
      rw [hstep]
      exact ih (attempt + 1) (some e) (by omega) (by omega)

/-- C9 counterexample: HTTP 501 is a 5xx status, yet `retry_request`
makes exactly one request and raises immediately — the code retries only
the statuses in `RETRYABLE_STATUS_CODES = {429, 500, 502, 503, 504}`,
not all of 5xx as the claim states. -/
theorem retry_request_5xx_cex :
    retry_request (fun _ => .ok 501) 3 = (.httpError 501, 1) ∧
    500 ≤ 501 ∧ 501 < 600 ∧ 501 ∉ RETRYABLE_STATUS_CODES := by
  refine ⟨rfl, by omega, by omega, by decide⟩

/-- C9 (corrected): `retry_request` retries exactly on the retryable
exceptions (connection failures, timeouts, chunked-encoding errors) and
on the statuses 429, 500, 502, 503 and 504; every other 4xx or 5xx
status — including other 5xx codes such as 501 — raises immediately
after a single request; and when all attempts are exhausted the final
error is re-raised to the caller. -/
theorem retry_request_amended :
    (∀ s m, s ∈ RETRYABLE_STATUS_CODES →
      retry_request (fun _ => .ok s) m = (.httpError s, m + 1)) ∧
    (∀ s m, 400 ≤ s → s < 600 → s ∉ RETRYABLE_STATUS_CODES →
      retry_request (fun _ => .ok s) m = (.httpError s, 1)) ∧
    (∀ e m, retryableExc e = true →
      retry_request (fun _ => .exc e) m = (.raised e, m + 1)) ∧
    (∀ e m, retryableExc e = false →
      retry_request (fun _ => .exc e) m = (.raised e, 1)) ∧
    (∀ s m, s < 400 → retry_request (fun _ => .ok s) m = (.success s, 1)) := by
  refine ⟨?_, ?_, ?_, ?_, ?_⟩
  · intro s m hs
    exact retryGo_const_status hs (m + 1) 0 none (by omega) (by omega)
  · intro s m h400 h600 hs
    by_cases h5 : s < 500
    · have h429 : s ≠ 429 := by
        intro h
        exact hs (by rw [h]; decide)
      simp [retry_request, retryGo, h400, h600, h5, h429, hs]
    · simp [retry_request, retryGo, h400, h600, h5, hs, raiseForStatus]
  · intro e m he
    exact retryGo_const_exc he (m + 1) 0 none (by omega) (by omega)
  · intro e m he
    simp [retry_request, retryGo, he]
  · intro s m hs
    simp [retry_request, retryGo, hs]

/-- C9 witness: the corrected theorem at concrete statuses and
exceptions — 503 retried to exhaustion, 404 raised after one request,
a timeout retried to exhaustion and re-raised, a non-retryable exception
raised after one request, a 200 returned after one request. -/
theorem retry_request_amended_witness :
    retry_request (fun _ => .ok 503) 3 = (.httpError 503, 4) ∧
    retry_request (fun _ => .ok 404) 3 = (.httpError 404, 1) ∧
    retry_request (fun _ => .exc .timeout) 3 = (.raised .timeout, 4) ∧
    retry_request (fun _ => .exc .other) 3 = (.raised .other, 1) ∧
    retry_request (fun _ => .ok 200) 3 = (.success 200, 1) :=
  ⟨retry_request_amended.1 503 3 (by decide),
   retry_request_amended.2.1 404 3 (by omega) (by omega) (by decide),
   retry_request_amended.2.2.1 .timeout 3 (by decide),
   retry_request_amended.2.2.2.1 .other 3 (by decide),
   retry_request_amended.2.2.2.2 200 3 (by omega)⟩

/-! ## Claim C1 — find_resumable_session -/

/-- The claim's notion of a matching resumable session: all three key
fields normalized by lowercasing and trimming, a non-empty contacts list
whose generated artifacts are all non-empty, and
`generation_complete = false`. -/
def claimResumable (segment campaign calling_date : String) (e : DiskEntry) : Bool :=
  pyStrip (pyLower e.data.segment) == pyStrip (pyLower segment) &&
  pyStrip (pyLower e.data.campaign) == pyStrip (pyLower campaign) &&
  pyStrip (pyLower e.data.calling_date) == pyStrip (pyLower calling_date) &&
  !e.data.contacts.isEmpty &&
  e.data.contacts.all (fun c => c.script_content ≠ "") &&
  e.data.generation_complete == false

/-- A session file that is resumable in the claim's sense for the query
`("s", "c", "d")` once the calling date is lowercased. -/
def cexEntryC1 : DiskEntry :=
  { fname := "prep_a.json", mtime := 0,
    data := { session_id := "a", segment := "s", campaign := "c",
              calling_date := "D", generation_complete := false,
              contacts := [{ contact_id := "1", script_content := "X" }] } }

/-- C1 counterexample: the stored calling date `"D"` equals the query
`"d"` after lowercasing, and the session is resumable in the claim's
sense, so the claim requires it to be returned — but the code compares
`calling_date` case-sensitively (only `.strip()`, no `.lower()`) and
returns `(None, None)`. -/
theorem find_resumable_cex :
    claimResumable "s" "c" "d" cexEntryC1 = true ∧
    find_resumable_session [cexEntryC1] "s" "c" "d" = none := by
  constructor
  · rfl
  · rfl

/-- The invariant maintained by the `find_resumable_session` scan over
the entries processed so far. -/
def frsInv (segment campaign calling_date : String)
    (processed : List DiskEntry) : Option (Session × Nat) → Prop
  | none => ∀ e ∈ processed, resumableMatch segment campaign calling_date e = false
  | some (s, t) =>
    (∃ e ∈ processed, resumableMatch segment campaign calling_date e = true ∧
      s = e.data ∧ t = e.mtime) ∧
    ∀ e ∈ processed, resumableMatch segment campaign calling_date e = true →
      e.mtime ≤ t

theorem frs_fold_inv (segment campaign calling_date : String) :
    ∀ (rest processed : List DiskEntry) (acc : Option (Session × Nat)),
    frsInv segment campaign calling_date processed acc →
    frsInv segment campaign calling_date (processed ++ rest)
      (rest.foldl (frsStep segment campaign calling_date) acc) := by
  intro rest
  induction rest with
  | nil =>
    intro processed acc h
    simpa using h
  | cons e rest ih =>
    intro processed acc h
    have hstep : frsInv segment campaign calling_date (processed ++ [e])
        (frsStep segment campaign calling_date acc e) := by
      by_cases hm : resumableMatch segment campaign calling_date e = true
      · cases acc with
        | none =>
          simp only [frsStep, hm, if_true]
          refine ⟨⟨e, by simp, hm, rfl, rfl⟩, ?_⟩
          intro e' he' hme'
          rcases List.mem_append.mp he' with he' | he'
          · rw [h e' he'] at hme'
            cases hme'
          · simp only [List.mem_singleton] at he'
            subst he'
            exact le_refl _
        | some b =>
          obtain ⟨s, t⟩ := b
          obtain ⟨⟨w, hw, hwm, hws, hwt⟩, hbound⟩ := h
          by_cases hgt : e.mtime > t
          · simp only [frsStep, hm, if_true, hgt]
            refine ⟨⟨e, by simp, hm, rfl, rfl⟩, ?_⟩
            intro e' he' hm'
            rcases List.mem_append.mp he' with he' | he'
            · exact le_of_lt (lt_of_le_of_lt (hbound e' he' hm') hgt)
            · simp only [List.mem_singleton] at he'
              subst he'
              exact le_refl _
          · simp only [frsStep, hm, if_true, hgt]
            refine ⟨⟨w, List.mem_append_left _ hw, hwm, hws, hwt⟩, ?_⟩
            intro e' he' hm'
            rcases List.mem_append.mp he' with he' | he'
            · exact hbound e' he' hm'
            · simp only [List.mem_singleton] at he'
              subst he'
              omega
      · have hm' : resumableMatch segment campaign calling_date e = false := by
          revert hm
          cases resumableMatch segment campaign calling_date e <;> simp
        have hacc : frsStep segment campaign calling_date acc e = acc := by
          simp [frsStep, hm']
        rw [hacc]
        cases acc with
        | none =>
          intro e' he'
          rcases List.mem_append.mp he' with he' | he'
          · exact h e' he'
          · simp only [List.mem_singleton] at he'
            subst he'
            exact hm'
        | some b =>
          obtain ⟨s, t⟩ := b
          obtain ⟨⟨w, hw, hwm, hws, hwt⟩, hbound⟩ := h
          refine ⟨⟨w, List.mem_append_left _ hw, hwm, hws, hwt⟩, ?_⟩
          intro e' he' hme'
          rcases List.mem_append.mp he' with he' | he'
          · exact hbound e' he' hme'
          · simp only [List.mem_singleton] at he'
            subst he'
            rw [hm'] at hme'
            cases hme'
    have hrest := ih (processed ++ [e]) _ hstep
    rwa [List.append_assoc, List.singleton_append] at hrest

/-- C1 (corrected): `find_resumable_session` scans all persisted
sessions and selects the one with the latest modification timestamp
among those whose `segment` and `campaign` match after lowercasing and
trimming, whose `calling_date` matches after trimming only
(case-sensitively), and whose `contacts` list is non-empty — no check of
generated artifacts or of `generation_complete` is made; it returns
`(None, None)` when no such session exists. -/
theorem find_resumable_spec (disk : List DiskEntry)
    (segment campaign calling_date : String) :
    (find_resumable_session disk segment campaign calling_date = none →
      ∀ e ∈ disk, resumableMatch segment campaign calling_date e = false) ∧
    (∀ s, find_resumable_session disk segment campaign calling_date = some s →
      ∃ e ∈ disk, resumableMatch segment campaign calling_date e = true ∧
        s = e.data ∧
        ∀ e' ∈ disk, resumableMatch segment campaign calling_date e' = true →
          e'.mtime ≤ e.mtime) := by
  have hinv := frs_fold_inv segment campaign calling_date disk [] none
    (by intro e he; cases he)
  simp only [List.nil_append] at hinv
  rcases hfold : disk.foldl (frsStep segment campaign calling_date) none with _ | ⟨s, t⟩
  · rw [hfold] at hinv
    constructor
    · intro _ e he
      exact hinv e he
    · intro s' hs'
      unfold find_resumable_session at hs'
      rw [hfold] at hs'
      cases hs'
  · rw [hfold] at hinv
    obtain ⟨⟨e, he, hm, hs, ht⟩, hbound⟩ := hinv
    constructor
    · intro hnone
      unfold find_resumable_session at hnone
      rw [hfold] at hnone
      cases hnone
    · intro s' hs'
      unfold find_resumable_session at hs'
      rw [hfold] at hs'
      have hss : s = s' := by
        simpa using hs'
      refine ⟨e, he, hm, by rw [← hss, hs], ?_⟩
      intro e' he' hm'
      rw [← ht]
      exact hbound e' he' hm'

/-- C1 witness: the corrected theorem applied to a one-file directory
whose session matches the query exactly, showing it is returned as the
best (latest) match. -/
theorem find_resumable_spec_witness :
    ∃ e ∈ [cexEntryC1],
      resumableMatch "s" "c" "D" e = true ∧
      cexEntryC1.data = e.data ∧
      ∀ e' ∈ [cexEntryC1], resumableMatch "s" "c" "D" e' = true →
        e'.mtime ≤ e.mtime :=
  (find_resumable_spec [cexEntryC1] "s" "c" "D").2 cexEntryC1.data (by rfl)

/-! ## Claims C4 and C8 — build_call_sheet placement and sorting -/

/-- The destination of an item: `none` for the unplaced bucket, `some j`
for block `j`, the first block of its timezone's mapping. -/
def placedIdx (item : SheetItem) : Option Nat :=
  if item.tz == "UNKNOWN" then none
  else (TZ_TO_BLOCKS.lookup item.tz).map (fun tzb => (tzb.headD (0, 0)).1)

theorem placeStep_eq (acc : List (List SheetItem) × List SheetItem)
    (item : SheetItem) :
    placeStep acc item =
      match placedIdx item with
      | none => (acc.1, acc.2 ++ [item])
      | some j => (acc.1.set j ((acc.1.getD j []) ++ [item]), acc.2) := by
  unfold placeStep placedIdx
  by_cases hu : item.tz == "UNKNOWN"
  · simp [hu]
  · simp only [hu, if_false, Bool.false_eq_true]
    cases TZ_TO_BLOCKS.lookup item.tz <;> simp

theorem tz_blocks_head_lt (k : String) (v : List (Nat × Nat))
    (h : TZ_TO_BLOCKS.lookup k = some v) :
    (v.headD (0, 0)).1 < TIME_BLOCKS.length := by
  simp only [TZ_TO_BLOCKS, List.lookup] at h
  repeat' split at h
  all_goals first
    | (injection h with h; subst h; decide)
    | cases h

theorem placedIdx_lt {item : SheetItem} {j : Nat}
    (h : placedIdx item = some j) : j < TIME_BLOCKS.length := by
  unfold placedIdx at h
  split at h
  · cases h
  · rcases hl : TZ_TO_BLOCKS.lookup item.tz with _ | tzb
    · rw [hl] at h
      cases h
    · rw [hl] at h
      simp only [Option.map_some'] at h
      injection h with h
      subst h
      exact tz_blocks_head_lt _ _ hl

theorem getD_set_eq {α : Type _} (l : List α) (j : Nat) (a d : α)
    (h : j < l.length) : (l.set j a).getD j d = a := by
  induction l generalizing j with
  | nil => simp at h
  | cons x xs ih =>
    cases j with
    | zero => rfl
    | succ j => exact ih j (by simpa using h)

theorem getD_set_ne {α : Type _} (l : List α) (i j : Nat) (a d : α)
    (h : i ≠ j) : (l.set j a).getD i d = l.getD i d := by
  induction l generalizing i j with
  | nil => simp [List.set]
  | cons x xs ih =>
    cases j with
    | zero =>
      cases i with
      | zero => exact absurd rfl h
      | succ i => rfl
    | succ j =>
      cases i with
      | zero => rfl
      | succ i => exact ih i j (by omega)

theorem getD_map_self {α : Type _} (f : α → α) (l : List α) (i : Nat) (d : α)
    (hd : f d = d) : (l.map f).getD i d = f (l.getD i d) := by
  induction l generalizing i with
  | nil => simp [hd]
  | cons x xs ih =>
    cases i with
    | zero => rfl
    | succ i => exact ih i

theorem getD_replicate_default {α : Type _} (n i : Nat) (d : α) :
    (List.replicate n d).getD i d = d := by
  induction n generalizing i with
  | zero => rfl
  | succ n ih =>
    cases i with
    | zero => rfl
    | succ i => exact ih i

theorem set_append_sum (l : List (List SheetItem)) (j : Nat) (x : SheetItem)
    (h : j < l.length) :
    ((l.set j ((l.getD j []) ++ [x])).map List.length).sum =
      (l.map List.length).sum + 1 := by
  induction l generalizing j with
  | nil => simp at h
  | cons b bs ih =>
    cases j with
    | zero =>
      simp only [List.set, List.getD_cons_zero, List.map_cons, List.sum_cons,
        List.length_append, List.length_cons, List.length_nil]
      omega
    | succ j =>
      simp only [List.set, List.getD_cons_succ, List.map_cons, List.sum_cons,
        ih j (by simpa using h)]
      omega

theorem placeAll_fold (items : List SheetItem) :
    ∀ (b0 : List (List SheetItem)) (u0 : List SheetItem),
      b0.length = TIME_BLOCKS.length →
      (items.foldl placeStep (b0, u0)).1.length = TIME_BLOCKS.length ∧
      (((items.foldl placeStep (b0, u0)).1.map List.length).sum +
        (items.foldl placeStep (b0, u0)).2.length =
        (b0.map List.length).sum + u0.length + items.length) ∧
      (∀ i, i < TIME_BLOCKS.length →
        (items.foldl placeStep (b0, u0)).1.getD i [] =
          b0.getD i [] ++ items.filter (fun it => placedIdx it == some i)) ∧
      (items.foldl placeStep (b0, u0)).2 =
        u0 ++ items.filter (fun it => placedIdx it == none) := by
  induction items with
  | nil =>
    intro b0 u0 hb0
    simp [hb0]
  | cons it rest ih =>
    intro b0 u0 hb0
    rw [List.foldl_cons, placeStep_eq]
    rcases hpi : placedIdx it with _ | j
    · obtain ⟨ih1, ih2, ih3, ih4⟩ := ih b0 (u0 ++ [it]) hb0
      refine ⟨ih1, ?_, ?_, ?_⟩
      · rw [ih2]
        simp only [List.length_append, List.length_cons, List.length_nil]
        omega
      · intro i hi
        rw [ih3 i hi, List.filter_cons]
        simp [hpi]
      · rw [ih4, List.filter_cons]
        simp [hpi, List.append_assoc]
    · have hj : j < TIME_BLOCKS.length := placedIdx_lt hpi
      have hjb : j < b0.length := by omega
      obtain ⟨ih1, ih2, ih3, ih4⟩ :=
        ih (b0.set j ((b0.getD j []) ++ [it])) u0 (by simpa using hb0)
      refine ⟨ih1, ?_, ?_, ?_⟩
      · rw [ih2, set_append_sum b0 j it hjb]
        simp only [List.length_cons]
        omega
      · intro i hi
        rw [ih3 i hi, List.filter_cons]
        by_cases hij : i = j
        · subst hij
          rw [getD_set_eq b0 i _ [] hjb]
          simp [hpi, List.append_assoc]
        · rw [getD_set_ne b0 i j _ [] hij]
          have : (placedIdx it == some i) = false := by
            simp [hpi]
            omega
          simp [this]
      · rw [ih4, List.filter_cons]
        simp [hpi]

theorem placeAll_spec (items : List SheetItem) :
    (placeAll items).1.length = TIME_BLOCKS.length ∧
    (((placeAll items).1.map List.length).sum + (placeAll items).2.length =
      items.length) ∧
    (∀ i, i < TIME_BLOCKS.length →
      (placeAll items).1.getD i [] =
        items.filter (fun it => placedIdx it == some i)) ∧
    (placeAll items).2 = items.filter (fun it => placedIdx it == none) := by
  obtain ⟨h1, h2, h3, h4⟩ := placeAll_fold items
    (List.replicate TIME_BLOCKS.length []) [] (by simp)
  refine ⟨h1, ?_, ?_, by simpa using h4⟩
  · have hz : ((List.replicate TIME_BLOCKS.length
        ([] : List SheetItem)).map List.length).sum = 0 := by
      simp
    have h2' := h2
    rw [hz] at h2'
    simp only [List.length_nil, Nat.zero_add, Nat.add_zero] at h2'
    exact h2'
  · intro i hi
    have := h3 i hi
    rwa [getD_replicate_default, List.nil_append] at this

theorem build_call_sheet_eq (items : List SheetItem) :
    build_call_sheet items =
      ((placeAll items).1.map (sortByRank itemRank),
        sortByRank itemRank (placeAll items).2) := by
  unfold build_call_sheet
  rcases placeAll items with ⟨b, u⟩
  rfl

theorem placedIdx_none_iff (it : SheetItem) :
    placedIdx it = none ↔
      (it.tz = "UNKNOWN" ∨ TZ_TO_BLOCKS.lookup it.tz = none) := by
  unfold placedIdx
  by_cases hu : it.tz = "UNKNOWN"
  · simp [hu]
  · rcases hl : TZ_TO_BLOCKS.lookup it.tz with _ | tzb <;> simp [hu, hl]

theorem placedIdx_some_eq (it : SheetItem) (tzb : List (Nat × Nat))
    (hu : it.tz ≠ "UNKNOWN") (hl : TZ_TO_BLOCKS.lookup it.tz = some tzb) :
    placedIdx it = some ((tzb.headD (0, 0)).1) := by
  unfold placedIdx
  simp [hu, hl]

/-- C4 (confirmed): `build_call_sheet` places every contact exactly once:
an item whose timezone has a block mapping lands in the first block of
that mapping and in no other block; an item whose timezone is `UNKNOWN`
or unmapped lands in the unplaced bucket and in no numbered block; and
the block sizes plus the unplaced bucket size sum to the input size, so
no contact is dropped. -/
theorem build_call_sheet_partition (items : List SheetItem) :
    (((build_call_sheet items).1.map List.length).sum +
      (build_call_sheet items).2.length = items.length) ∧
    (∀ it ∈ items, (it.tz = "UNKNOWN" ∨ TZ_TO_BLOCKS.lookup it.tz = none) →
      it ∈ (build_call_sheet items).2 ∧
      ∀ b ∈ (build_call_sheet items).1, it ∉ b) ∧
    (∀ it ∈ items, ∀ tzb, it.tz ≠ "UNKNOWN" →
      TZ_TO_BLOCKS.lookup it.tz = some tzb →
      it ∈ (build_call_sheet items).1.getD (tzb.headD (0, 0)).1 [] ∧
      ∀ i, i < (build_call_sheet items).1.length → i ≠ (tzb.headD (0, 0)).1 →
        it ∉ (build_call_sheet items).1.getD i []) := by
  obtain ⟨hlen, hsum, hblk, hunk⟩ := placeAll_spec items
  rw [build_call_sheet_eq]
  refine ⟨?_, ?_, ?_⟩
  · have hmap : ((placeAll items).1.map (sortByRank itemRank)).map List.length =
        (placeAll items).1.map List.length := by
      rw [List.map_map]
      exact List.map_congr_left (fun b _ => length_sortByRank b)
    simpa [hmap, length_sortByRank] using hsum
  · intro it hit hnone
    have hpi : placedIdx it = none := (placedIdx_none_iff it).mpr hnone
    constructor
    · simp only []
      rw [mem_sortByRank, hunk, List.mem_filter]
      exact ⟨hit, by simp [hpi]⟩
    · intro b hb hmem
      obtain ⟨rb, hrb, rfl⟩ := List.mem_map.mp hb
      obtain ⟨i, hi, hrbi⟩ := List.mem_iff_getElem.mp hrb
      have hgd : (placeAll items).1.getD i [] = rb := by
        rw [List.getD_eq_getElem _ _ hi, hrbi]
      have hilt : i < TIME_BLOCKS.length := by omega
      rw [hblk i hilt] at hgd
      have : it ∈ rb := mem_sortByRank.mp hmem
      rw [← hgd, List.mem_filter] at this
      simp [hpi] at this
  · intro it hit tzb hu hl
    have hpi : placedIdx it = some ((tzb.headD (0, 0)).1) :=
      placedIdx_some_eq it tzb hu hl
    have hjlt : (tzb.headD (0, 0)).1 < TIME_BLOCKS.length := placedIdx_lt hpi
    constructor
    · rw [getD_map_self _ _ _ _ rfl, mem_sortByRank, hblk _ hjlt,
        List.mem_filter]
      exact ⟨hit, by simp [hpi]⟩
    · intro i hibound hij hmem
      have hilt : i < TIME_BLOCKS.length := by
        rwa [List.length_map, hlen] at hibound
      rw [getD_map_self _ _ _ _ rfl, mem_sortByRank, hblk i hilt,
        List.mem_filter] at hmem
      have h2 := hmem.2
      rw [hpi] at h2
      rw [beq_iff_eq] at h2
      injection h2 with h2
      exact hij h2.symm

/-- C4 witness: the partition theorem at a four-item list — a Pacific
VP, a Pacific CTO, an unknown-timezone VP and an unmapped timezone —
showing the placements and the size identity concretely. -/
theorem build_call_sheet_partition_witness :
    (((build_call_sheet
        [{ cid := "1", tz := "US/Pacific", jobtitle := "Manager" },
         { cid := "2", tz := "US/Pacific", jobtitle := "CTO" },
         { cid := "3", tz := "UNKNOWN", jobtitle := "VP" },
         { cid := "4", tz := "Mars", jobtitle := "" }]).1.map List.length).sum +
      (build_call_sheet
        [{ cid := "1", tz := "US/Pacific", jobtitle := "Manager" },
         { cid := "2", tz := "US/Pacific", jobtitle := "CTO" },
         { cid := "3", tz := "UNKNOWN", jobtitle := "VP" },
         { cid := "4", tz := "Mars", jobtitle := "" }]).2.length = 4) ∧
    ({ cid := "3", tz := "UNKNOWN", jobtitle := "VP" } : SheetItem) ∈
      (build_call_sheet
        [{ cid := "1", tz := "US/Pacific", jobtitle := "Manager" },
         { cid := "2", tz := "US/Pacific", jobtitle := "CTO" },
         { cid := "3", tz := "UNKNOWN", jobtitle := "VP" },
         { cid := "4", tz := "Mars", jobtitle := "" }]).2 ∧
    ({ cid := "2", tz := "US/Pacific", jobtitle := "CTO" } : SheetItem) ∈
      (build_call_sheet
        [{ cid := "1", tz := "US/Pacific", jobtitle := "Manager" },
         { cid := "2", tz := "US/Pacific", jobtitle := "CTO" },
         { cid := "3", tz := "UNKNOWN", jobtitle := "VP" },
         { cid := "4", tz := "Mars", jobtitle := "" }]).1.getD 3 [] :=
  ⟨(build_call_sheet_partition _).1,
   ((build_call_sheet_partition _).2.1 _ (by decide) (by decide)).1,
   ((build_call_sheet_partition _).2.2 _ (by decide)
      [(3, 0), (4, 0), (9, 1), (10, 1)] (by decide) (by decide)).1⟩

/-- C8 (confirmed): after `build_call_sheet`, every block and the
unplaced bucket are sorted ascending by seniority rank, and the sort is
stable: for every rank value, the subsequence of items of that rank in a
sorted block equals the corresponding subsequence of the raw (placement
order) block, which is itself a subsequence of the input list — so items
of equal rank in the same block keep their input relative order. -/
theorem build_call_sheet_sorted_stable (items : List SheetItem) :
    (∀ b ∈ (build_call_sheet items).1,
      b.Pairwise (fun x y => itemRank x ≤ itemRank y)) ∧
    (build_call_sheet items).2.Pairwise (fun x y => itemRank x ≤ itemRank y) ∧
    (∀ i k, ((build_call_sheet items).1.getD i []).filter
        (fun x => itemRank x == k) =
      ((placeAll items).1.getD i []).filter (fun x => itemRank x == k)) ∧
    (∀ k, (build_call_sheet items).2.filter (fun x => itemRank x == k) =
      (placeAll items).2.filter (fun x => itemRank x == k)) ∧
    (∀ i, List.Sublist ((placeAll items).1.getD i []) items) ∧
    List.Sublist (placeAll items).2 items := by
  obtain ⟨hlen, _, hblk, hunk⟩ := placeAll_spec items
  rw [build_call_sheet_eq]
  refine ⟨?_, ?_, ?_, ?_, ?_, ?_⟩
  · intro b hb
    obtain ⟨rb, _, rfl⟩ := List.mem_map.mp hb
    exact sortByRank_pairwise rb
  · exact sortByRank_pairwise _
  · intro i k
    rw [getD_map_self _ _ _ _ rfl]
    exact sortByRank_filter k _
  · intro k
    exact sortByRank_filter k _
  · intro i
    by_cases hi : i < TIME_BLOCKS.length
    · rw [hblk i hi]
      exact List.filter_sublist items
    · rw [List.getD_eq_default]
      · exact List.nil_sublist items
      · omega
  · rw [hunk]
    exact List.filter_sublist items

/-- C8 witness: the sortedness-and-stability theorem at a concrete list
with two equal-rank Pacific managers, showing they stay in input order
inside their block. -/
theorem build_call_sheet_sorted_stable_witness :
    (∀ b ∈ (build_call_sheet
        [{ cid := "a", tz := "US/Pacific", jobtitle := "Manager" },
         { cid := "b", tz := "US/Pacific", jobtitle := "Manager" }]).1,
      b.Pairwise (fun x y => itemRank x ≤ itemRank y)) ∧
    ((build_call_sheet
        [{ cid := "a", tz := "US/Pacific", jobtitle := "Manager" },
         { cid := "b", tz := "US/Pacific", jobtitle := "Manager" }]).1.getD 3
      []).filter (fun x => itemRank x == 3) =
      ((placeAll
        [{ cid := "a", tz := "US/Pacific", jobtitle := "Manager" },
         { cid := "b", tz := "US/Pacific", jobtitle := "Manager" }]).1.getD 3
      []).filter (fun x => itemRank x == 3) :=
  ⟨(build_call_sheet_sorted_stable _).1,
   (build_call_sheet_sorted_stable _).2.2.1 3 3⟩

/-! ## Claim C3 — approve commit and retry -/

theorem approveLoop_fold (w : String → Bool) :
    ∀ (pending : List SessContact) (s e : Nat) (fs : List String),
    pending.foldl (fun acc c =>
      if w c.contact_id then (acc.1 + 1, acc.2.1, acc.2.2)
      else (acc.1, acc.2.1 + 1, acc.2.2 ++ [c.contact_id])) (s, e, fs) =
    (s + (pending.filter (fun c => w c.contact_id)).length,
     e + (pending.filter (fun c => !w c.contact_id)).length,
     fs ++ (pending.filter (fun c => !w c.contact_id)).map
       (fun c => c.contact_id)) := by
  intro pending
  induction pending with
  | nil => simp
  | cons c rest ih =>
    intro s e fs
    by_cases hw : w c.contact_id
    · simp only [List.foldl_cons, hw, if_true, ih, List.filter_cons]
      simp [hw]
      omega
    · simp only [List.foldl_cons, hw, if_false, ih, List.filter_cons]
      simp [hw]
      omega

theorem approveLoop_spec (w : String → Bool) (pending : List SessContact) :
    approveLoop w pending =
      ((pending.filter (fun c => w c.contact_id)).length,
       (pending.filter (fun c => !w c.contact_id)).length,
       (pending.filter (fun c => !w c.contact_id)).map
         (fun c => c.contact_id)) := by
  unfold approveLoop
  rw [approveLoop_fold]
  simp

theorem lookup_filter_ne (l : List (String × Session)) (k : String) :
    (l.filter (fun kv => kv.1 ≠ k)).lookup k = none := by
  induction l with
  | nil => rfl
  | cons kv rest ih =>
    obtain ⟨k1, v1⟩ := kv
    rw [List.filter_cons]
    by_cases hk : k1 = k
    · have h0 : (decide ¬(k1 = k)) = false := by simp [hk]
      simp only [ne_eq, h0, Bool.false_eq_true, if_false]
      exact ih
    · have h1 : (decide ¬(k1 = k)) = true := by simp [hk]
      simp only [ne_eq, h1, if_true]
      have h2 : (k == k1) = false := by
        rw [beq_eq_false_iff_ne]
        exact fun h => hk h.symm
      rw [List.lookup_cons, h2]
      exact ih

theorem approve_pending_failed (s : Session) (h : s.failed_contact_ids ≠ []) :
    approve_pending s =
      s.contacts.filter (fun c => s.failed_contact_ids.contains c.contact_id) := by
  unfold approve_pending
  simp [h]

/-- C3 (confirmed): over an approve run on a fresh session (no recorded
failures), the session is deleted from the store iff zero per-contact
write failures occurred; on failures it is retained with exactly the
failed contact ids recorded, and the next run's pending list is exactly
the previously-failed subset, so successful writes are not re-sent. -/
theorem approve_commit_retry (sess : Session) (w1 : String → Bool)
    (hfresh : sess.failed_contact_ids = []) :
    ((approveLoop w1 (approve_pending sess)).2.1 = 0 ↔
      sess.contacts.filter (fun c => !w1 c.contact_id) = []) ∧
    (∀ st sid now,
      get_session (approve_effect st sid sess w1 now) sid = none ↔
      (approveLoop w1 (approve_pending sess)).2.1 = 0) ∧
    ((approveLoop w1 (approve_pending sess)).2.1 ≠ 0 →
      ∀ st sid now, ∃ sess',
        get_session (approve_effect st sid sess w1 now) sid = some sess' ∧
        sess'.failed_contact_ids =
          (sess.contacts.filter (fun c => !w1 c.contact_id)).map
            (fun c => c.contact_id) ∧
        approve_pending sess' =
          sess.contacts.filter (fun c => !w1 c.contact_id)) := by
  have hpend : approve_pending sess = sess.contacts := by
    unfold approve_pending
    simp [hfresh]
  have hloop : approveLoop w1 (approve_pending sess) =
      ((sess.contacts.filter (fun c => w1 c.contact_id)).length,
       (sess.contacts.filter (fun c => !w1 c.contact_id)).length,
       (sess.contacts.filter (fun c => !w1 c.contact_id)).map
         (fun c => c.contact_id)) := by
    rw [hpend, approveLoop_spec]
  refine ⟨?_, ?_, ?_⟩
  · rw [hloop]
    simp [List.length_eq_zero]
  · intro st sid now
    by_cases herr : (approveLoop w1 (approve_pending sess)).2.1 = 0
    · have herrb : ((approveLoop w1 (approve_pending sess)).2.1 == 0) = true := by
        simpa using herr
      simp only [approve_effect, herrb, if_true]
      unfold delete_session get_session
      rw [lookup_filter_ne]
      simp [herr]
    · have herrb : ((approveLoop w1 (approve_pending sess)).2.1 == 0) = false := by
        simpa using herr
      simp only [approve_effect, herrb, Bool.false_eq_true, if_false]
      unfold set_session get_session
      simp only [List.lookup_cons, beq_self_eq_true]
      simp [herr]
  · intro herr st sid now
    have herrb : ((approveLoop w1 (approve_pending sess)).2.1 == 0) = false := by
      simpa using herr
    have hfailed : (approveLoop w1 (approve_pending sess)).2.2 =
        (sess.contacts.filter (fun c => !w1 c.contact_id)).map
          (fun c => c.contact_id) := by
      rw [hloop]
    have hflen : sess.contacts.filter (fun c => !w1 c.contact_id) ≠ [] := by
      intro hnil
      apply herr
      rw [hloop, hnil]
      rfl
    have hne : (approveLoop w1 (approve_pending sess)).2.2 ≠ [] := by
      rw [hfailed]
      simpa using hflen
    refine ⟨{ sess with
        failed_contact_ids := (approveLoop w1 (approve_pending sess)).2.2,
        approval_errors := (approveLoop w1 (approve_pending sess)).2.1 }, ?_, hfailed, ?_⟩
    · simp only [approve_effect, herrb, Bool.false_eq_true, if_false]
      unfold set_session get_session
      simp [List.lookup_cons]
    · rw [approve_pending_failed _ (by exact hne)]
      show sess.contacts.filter (fun c =>
        ((approveLoop w1 (approve_pending sess)).2.2).contains c.contact_id) = _
      rw [hfailed]
      rw [List.filter_congr]
      intro c hc
      simp only [List.contains, List.elem_eq_mem]
      by_cases hw : w1 c.contact_id = true
      · simp only [hw, Bool.not_true, decide_eq_false_iff_not]
        intro hmem
        obtain ⟨c2, hc2, hcid⟩ := List.mem_map.mp hmem
        rw [List.mem_filter] at hc2
        have hwf : w1 c2.contact_id = false := by
          simpa using hc2.2
        rw [hcid] at hwf
        rw [hwf] at hw
        cases hw
      · have hw2 : w1 c.contact_id = false := by
          revert hw
          cases w1 c.contact_id <;> simp
        simp only [hw2, Bool.not_false, decide_eq_true_eq]
        exact List.mem_map.mpr ⟨c, List.mem_filter.mpr ⟨hc, by simp [hw2]⟩, rfl⟩

/-- A two-contact session for exercising the approve commit/retry path. -/
def sessW : Session :=
  { session_id := "s1", segment := "s", campaign := "c", calling_date := "d",
    contacts := [{ contact_id := "1", note_html := "n1" },
                 { contact_id := "2", note_html := "n2" }] }

/-- A write oracle under which contact `"1"` fails and contact `"2"`
succeeds. -/
def w1W : String → Bool := fun cid => !(cid == "1")

/-- C3 witness: the commit/retry theorem applied to a concrete
two-contact session where contact 1's write fails: the session is
retained with failed id `"1"` recorded, and the next run's pending list
is exactly contact 1. -/
theorem approve_commit_retry_witness :
    ∃ sess',
      get_session (approve_effect { mem := [("s1", sessW)], disk := [] }
        "s1" sessW w1W 0) "s1" = some sess' ∧
      sess'.failed_contact_ids =
        (sessW.contacts.filter (fun c => !w1W c.contact_id)).map
          (fun c => c.contact_id) ∧
      approve_pending sess' =
        sessW.contacts.filter (fun c => !w1W c.contact_id) :=
  (approve_commit_retry sessW w1W rfl).2.2 (by decide)
    { mem := [("s1", sessW)], disk := [] } "s1" 0

/-! ## Claim C10 — successful commit leaves the disk session behind -/

theorem listStartsWith_append (w r : List Char) :
    listStartsWith (w ++ r) w = true := by
  induction w with
  | nil => cases r <;> rfl
  | cons c cs ih => simp [listStartsWith, ih]

theorem startsWith_prep (sid : String) :
    listStartsWith (prep_fname sid).data "prep_".data = true := by
  unfold prep_fname
  rw [String.data_append, String.data_append, List.append_assoc]
  exact listStartsWith_append _ _

theorem endsWith_json (sid : String) :
    listEndsWith (prep_fname sid).data ".json".data = true := by
  unfold listEndsWith prep_fname
  rw [String.data_append, List.reverse_append]
  exact listStartsWith_append _ _

/-- C10 (confirmed): a commit run with zero write failures only removes
the in-memory store entry — the `sessions/prep_<id>.json` file is left
exactly as it was — and the committed session, having a non-empty
contacts list, is still returned by a later `find_resumable_session`
call for the same (segment, campaign, calling_date). -/
theorem approve_success_frame (st : StoreState) (sid : String) (sess : Session)
    (w : String → Bool) (now : Nat) (e : DiskEntry)
    (herr : (approveLoop w (approve_pending sess)).2.1 = 0)
    (hdisk : st.disk = [e])
    (hf : e.fname = prep_fname sid)
    (hdata : e.data = sess)
    (hc : sess.contacts ≠ []) :
    (approve_effect st sid sess w now).disk = st.disk ∧
    get_session (approve_effect st sid sess w now) sid = none ∧
    find_resumable_session (approve_effect st sid sess w now).disk
      sess.segment sess.campaign sess.calling_date = some sess := by
  have herrb : ((approveLoop w (approve_pending sess)).2.1 == 0) = true := by
    simpa using herr
  have heffect : approve_effect st sid sess w now = delete_session st sid := by
    simp only [approve_effect, herrb, if_true]
  have hmatch : resumableMatch sess.segment sess.campaign sess.calling_date e
      = true := by
    unfold resumableMatch
    rw [hf, hdata]
    have hie : sess.contacts.isEmpty = false := by
      rcases hcc : sess.contacts with _ | ⟨a, rest⟩
      · exact absurd hcc hc
      · rfl
    have h1 := startsWith_prep sid
    have h2 := endsWith_json sid
    simp [h1, h2, hie]
  refine ⟨?_, ?_, ?_⟩
  · rw [heffect]
    rfl
  · rw [heffect]
    unfold delete_session get_session
    exact lookup_filter_ne _ _
  · rw [heffect]
    show find_resumable_session st.disk sess.segment sess.campaign
      sess.calling_date = some sess
    rw [hdisk]
    unfold find_resumable_session
    simp [frsStep, hmatch, hdata]

/-- A completed one-session directory state for the frame property. -/
def stW : StoreState :=
  { mem := [("s1", sessW)],
    disk := [{ fname := "prep_s1.json", mtime := 7, data := sessW }] }

/-- C10 witness: the frame theorem at the concrete store `stW` with a
write oracle that always succeeds — the disk is untouched, the memory
entry is gone, and the session is found again. -/
theorem approve_success_frame_witness :
    (approve_effect stW "s1" sessW (fun _ => true) 9).disk = stW.disk ∧
    get_session (approve_effect stW "s1" sessW (fun _ => true) 9) "s1" = none ∧
    find_resumable_session (approve_effect stW "s1" sessW (fun _ => true) 9).disk
      sessW.segment sessW.campaign sessW.calling_date = some sessW :=
  approve_success_frame stW "s1" sessW (fun _ => true) 9
    { fname := "prep_s1.json", mtime := 7, data := sessW }
    (by decide) rfl (by decide) rfl (by decide)

/-! ## Claim C2 — resume semantics of the generate route -/

/-- The `prepped_contacts` produced contact-by-contact. -/
def preppedOf (env : GenEnv) (skip_existing : Bool)
    (cache : List (String × SessContact)) : List Contact → List Prepped
  | [] => []
  | c :: rest =>
    (processContact env skip_existing cache c).1.toList ++
      preppedOf env skip_existing cache rest

/-- The ids for which the Octave generation step is invoked. -/
def genIdsOf (env : GenEnv) (skip_existing : Bool)
    (cache : List (String × SessContact)) : List Contact → List String
  | [] => []
  | c :: rest =>
    (if (processContact env skip_existing cache c).2 then [c.id] else []) ++
      genIdsOf env skip_existing cache rest

theorem run_generate_fold (env : GenEnv) (skip_existing : Bool)
    (cache : List (String × SessContact)) :
    ∀ (contacts : List Contact) (a1 : List Prepped) (a2 : List String),
    contacts.foldl (fun acc c =>
      let r := processContact env skip_existing cache c
      (acc.1 ++ r.1.toList, acc.2 ++ if r.2 then [c.id] else [])) (a1, a2) =
    (a1 ++ preppedOf env skip_existing cache contacts,
     a2 ++ genIdsOf env skip_existing cache contacts) := by
  intro contacts
  induction contacts with
  | nil => simp [preppedOf, genIdsOf]
  | cons c rest ih =>
    intro a1 a2
    simp only [List.foldl_cons, ih, preppedOf, genIdsOf, List.append_assoc]

theorem run_generate_spec (env : GenEnv) (skip_existing : Bool)
    (prev : Option Session) (contacts : List Contact) :
    run_generate env skip_existing prev contacts =
      (preppedOf env skip_existing (cached_scripts prev) contacts,
       genIdsOf env skip_existing (cached_scripts prev) contacts) := by
  unfold run_generate
  rw [run_generate_fold]
  simp

theorem mem_genIdsOf {env : GenEnv} {skip_existing : Bool}
    {cache : List (String × SessContact)} {x : String}
    {contacts : List Contact} :
    x ∈ genIdsOf env skip_existing cache contacts ↔
      ∃ c ∈ contacts,
        (processContact env skip_existing cache c).2 = true ∧ x = c.id := by
  induction contacts with
  | nil => simp [genIdsOf]
  | cons c rest ih =>
    unfold genIdsOf
    rw [List.mem_append, ih]
    constructor
    · intro h
      rcases h with h | ⟨c2, hc2, hg, hx⟩
      · by_cases hgen : (processContact env skip_existing cache c).2
        · rw [if_pos hgen] at h
          simp only [List.mem_singleton] at h
          exact ⟨c, by simp, by simpa using hgen, h⟩
        · rw [if_neg hgen] at h
          cases h
      · exact ⟨c2, by simp [hc2], hg, hx⟩
    · intro ⟨c2, hc2, hg, hx⟩
      rcases List.mem_cons.mp hc2 with rfl | hc2
      · left
        rw [if_pos hg]
        simp [hx]
      · right
        exact ⟨c2, hc2, hg, hx⟩

theorem mem_preppedOf {env : GenEnv} {skip_existing : Bool}
    {cache : List (String × SessContact)} {p : Prepped}
    {contacts : List Contact} :
    p ∈ preppedOf env skip_existing cache contacts ↔
      ∃ c ∈ contacts,
        (processContact env skip_existing cache c).1 = some p := by
  induction contacts with
  | nil => simp [preppedOf]
  | cons c rest ih =>
    unfold preppedOf
    rw [List.mem_append, ih]
    constructor
    · intro h
      rcases h with h | ⟨c2, hc2, hp⟩
      · rcases hres : (processContact env skip_existing cache c).1 with _ | q
        · rw [hres] at h
          cases h
        · rw [hres] at h
          simp only [Option.toList_some, List.mem_singleton] at h
          exact ⟨c, by simp, by rw [hres, h]⟩
      · exact ⟨c2, by simp [hc2], hp⟩
    · intro ⟨c2, hc2, hp⟩
      rcases List.mem_cons.mp hc2 with rfl | hc2
      · left
        rw [hp]
        simp
      · right
        exact ⟨c2, hc2, hp⟩

/-- The three filters of the fresh path all pass for a contact id: not an
active subscriber (and no skip from Filter A), an outbound email was
found, and no existing-prep skip. -/
def filtersPass (env : GenEnv) (skip_existing : Bool) (id : String) : Prop :=
  env.isSubscriberResult id ≠ .ok true ∧
  (∃ ed, env.emailSearch id = .ok (some ed)) ∧
  ¬(skip_existing = true ∧ env.hasPrep id = true)

theorem processFresh_gen_iff (env : GenEnv) (skip_existing : Bool) (c : Contact) :
    (processFresh env skip_existing c).2 = true ↔
      filtersPass env skip_existing c.id := by
  unfold processFresh filtersPass
  rcases hsub : env.isSubscriberResult c.id with u | b
  · rcases hmail : env.emailSearch c.id with u2 | ed?
    · simp [hsub, hmail]
    · rcases ed? with _ | ed
      · simp [hsub, hmail]
      · by_cases hsp : (skip_existing && env.hasPrep c.id) = true
        · have := hsp
          rw [Bool.and_eq_true] at this
          simp [hsub, hmail, hsp, this]
        · have hsp' : ¬(skip_existing = true ∧ env.hasPrep c.id = true) := by
            rw [← Bool.and_eq_true]
            exact hsp
          rcases hg : env.generateScript c ed with u3 | s <;>
            simp [hsub, hmail, hsp, hg, hsp']
  · cases b
    · rcases hmail : env.emailSearch c.id with u2 | ed?
      · simp [hsub, hmail]
      · rcases ed? with _ | ed
        · simp [hsub, hmail]
        · by_cases hsp : (skip_existing && env.hasPrep c.id) = true
          · have := hsp
            rw [Bool.and_eq_true] at this
            simp [hsub, hmail, hsp, this]
          · have hsp' : ¬(skip_existing = true ∧ env.hasPrep c.id = true) := by
              rw [← Bool.and_eq_true]
              exact hsp
            rcases hg : env.generateScript c ed with u3 | s <;>
              simp [hsub, hmail, hsp, hg, hsp']
    · simp [hsub]

theorem processContact_cached (env : GenEnv) (skip_existing : Bool)
    (cache : List (String × SessContact)) (c : Contact) (cc : SessContact)
    (h : pyDictLookup cache c.id = some cc) :
    processContact env skip_existing cache c =
      (some { contact := c, tz := resolve_timezone c,
              tz_lbl := tz_label (resolve_timezone c),
              script_content := cc.script_content, email_data := some {},
              note_html := env.formatNote c cc.script_content }, false) := by
  unfold processContact
  rw [h]

theorem processContact_gen_iff (env : GenEnv) (skip_existing : Bool)
    (cache : List (String × SessContact)) (c : Contact) :
    (processContact env skip_existing cache c).2 = true ↔
      (pyDictLookup cache c.id = none ∧ filtersPass env skip_existing c.id) := by
  rcases hl : pyDictLookup cache c.id with _ | cc
  · unfold processContact
    rw [hl]
    simp [processFresh_gen_iff]
  · rw [processContact_cached env skip_existing cache c cc hl]
    simp [hl]

/-- C2 (confirmed): when a resumable prior session exists (with a
non-empty token), the generate route reuses its token rather than a
fresh one; every contact whose id has a non-empty cached artifact in the
prior session is skipped entirely — the generation step is never invoked
for it and it is re-appended with its artifact unchanged; and for every
contact lacking a cached artifact, the generation step is invoked
exactly when the full filter path (subscriber, outbound email,
existing-prep) passes. -/
theorem generate_resume (env : GenEnv) (skip_existing : Bool) (prev : Session)
    (contacts : List Contact) (fresh : String)
    (hsid : prev.session_id ≠ "") :
    choose_session_id (some prev) fresh = prev.session_id ∧
    (∀ c ∈ contacts, ∀ cc,
      pyDictLookup (cached_scripts (some prev)) c.id = some cc →
      c.id ∉ (run_generate env skip_existing (some prev) contacts).2 ∧
      ∃ p ∈ (run_generate env skip_existing (some prev) contacts).1,
        p.contact = c ∧ p.script_content = cc.script_content) ∧
    (∀ c ∈ contacts,
      pyDictLookup (cached_scripts (some prev)) c.id = none →
      (c.id ∈ (run_generate env skip_existing (some prev) contacts).2 ↔
        filtersPass env skip_existing c.id)) := by
  refine ⟨?_, ?_, ?_⟩
  · unfold choose_session_id
    have hb : (prev.session_id == "") = false := by
      rw [beq_eq_false_iff_ne]
      exact hsid
    simp only [hb, Bool.false_eq_true, if_false]
  · intro c hc cc hcc
    rw [run_generate_spec]
    constructor
    · intro hmem
      obtain ⟨c2, hc2, hgen, hid⟩ := mem_genIdsOf.mp hmem
      rw [processContact_gen_iff] at hgen
      rw [← hid, hcc] at hgen
      cases hgen.1
    · refine Exists.intro
        ({ contact := c, tz := resolve_timezone c,
           tz_lbl := tz_label (resolve_timezone c),
           script_content := cc.script_content, email_data := some {},
           note_html := env.formatNote c cc.script_content } : Prepped) ?_
      refine ⟨?_, rfl, rfl⟩
      refine mem_preppedOf.mpr ⟨c, hc, ?_⟩
      rw [processContact_cached env skip_existing _ c cc hcc]
  · intro c hc hnone
    rw [run_generate_spec]
    constructor
    · intro hmem
      obtain ⟨c2, hc2, hgen, hid⟩ := mem_genIdsOf.mp hmem
      rw [processContact_gen_iff] at hgen
      rw [← hid] at hgen
      exact hgen.2
    · intro hpass
      exact mem_genIdsOf.mpr ⟨c, hc,
        (processContact_gen_iff env skip_existing _ c).mpr ⟨hnone, hpass⟩, rfl⟩

/-- The prior session of the resume example: contact `A` has artifact
`"X"`, contact `B` has none. -/
def prevW : Session :=
  { session_id := "tok8", segment := "s", campaign := "c", calling_date := "d",
    contacts := [{ contact_id := "A", script_content := "X" },
                 { contact_id := "B" }] }

/-- An oracle environment in which every filter passes and generation
succeeds with a fresh script. -/
def envW : GenEnv :=
  { isSubscriberResult := fun _ => .ok false,
    emailSearch := fun _ => .ok (some {}),
    hasPrep := fun _ => false,
    generateScript := fun _ _ => .ok "fresh-script",
    formatNote := fun _ s => s }

/-- C2 witness: the resume theorem at the spec's own example — a prior
session `[A(artifact=X), B(no artifact)]` re-run over contacts `A` and
`B`: the token `"tok8"` is reused, generation is never invoked for `A`,
`A` keeps artifact `"X"` unchanged, and generation for `B` is invoked
iff the filters pass (which they do under `envW`). -/
theorem generate_resume_witness :
    choose_session_id (some prevW) "fresh" = "tok8" ∧
    ("A" ∉ (run_generate envW false (some prevW)
        [{ id := "A" }, { id := "B" }]).2 ∧
      ∃ p ∈ (run_generate envW false (some prevW)
          [{ id := "A" }, { id := "B" }]).1,
        p.contact = { id := "A" } ∧ p.script_content = "X") ∧
    ("B" ∈ (run_generate envW false (some prevW)
        [{ id := "A" }, { id := "B" }]).2 ↔
      filtersPass envW false "B") :=
  ⟨(generate_resume envW false prevW [{ id := "A" }, { id := "B" }] "fresh"
      (by decide)).1,
   (generate_resume envW false prevW [{ id := "A" }, { id := "B" }] "fresh"
      (by decide)).2.1 { id := "A" } (by simp)
      { contact_id := "A", script_content := "X" } (by decide),
   (generate_resume envW false prevW [{ id := "A" }, { id := "B" }] "fresh"
      (by decide)).2.2 { id := "B" } (by simp) (by decide)⟩
